import Mathlib

/-!
# pydecenttree: the Python binding of decenttree

A shallow embedding of `src/pydecenttree/pydecenttree.cpp` and theorems about it.

Modelling conventions.

* A `PyObject` is described by what the four C-API observations used in the
  file return on it: `PyObject_Str` followed by `PyUnicode_AsUTF8AndSize`,
  `PyFloat_AsDouble`, `PySequence_List`, and `PyArray_Check` with the array
  header fields.  A null `PyObject*` is `none`.
* Reference parameters (`StrVector&`, `const double*&`, `intptr_t&`,
  `std::stringstream&`) become an argument (value on entry) and a component of
  the result (value on exit).
* `std::stringstream complaint` is the list of texts written to it, one entry
  per executed output statement `complaint << ... ;`, oldest first; `str()` is
  their concatenation.
* Text (`char*`, `std::string`) is `String`; texts are taken to be free of NUL
  characters and valid UTF-8, so `c_str()` and `PyUnicode_FromString` keep them.
* A `double` is never computed with in this file; it is carried as its IEEE-754
  bit pattern.
* Machine integers are `Int`/`Nat` with explicit wrap-around: `int` is 32 bits,
  `intptr_t` and `size_t` are 64 bits.
* `PyArg_ParseTupleAndKeywords` is modelled by what it does with the format
  string and the pointers of lines 184-188: the units of the format are converted
  in order, each taking its pointers from those passed.  Reading past the
  pointers passed, and storing through a pointer to a local of another type, are
  undefined in C; the model counts both as a failed parse.
* `constructTreeBody` is the body of lines 192-263, run on given values of the
  locals; `pydecenttree_constructTree` is the whole function, parse included.
-/

set_option linter.unusedVariables false

namespace PyDecentTree

/-! ## Machine integers -/

/-- Conversion to `int` (32-bit two's complement): the residue modulo `2 ^ 32`,
read as negative from `2 ^ 31` on. -/
def toInt32 (z : Int) : Int :=
  let residue : Nat := (z % 2 ^ 32).toNat
  if residue < 2 ^ 31 then (residue : Int) else (residue : Int) - 2 ^ 32

/-- Conversion to `intptr_t` (64-bit two's complement). -/
def toIntptr (z : Int) : Int :=
  let residue : Nat := (z % 2 ^ 64).toNat
  if residue < 2 ^ 63 then (residue : Int) else (residue : Int) - 2 ^ 64

/-- Conversion to `size_t` (64-bit unsigned). -/
def toSizeT (z : Int) : Nat := (z % 2 ^ 64).toNat

/-! ## Native data -/

/-- A `double`, carried as its IEEE-754 binary64 bit pattern. -/
structure Double where
  bits : Nat
  deriving DecidableEq, Repr

abbrev StrVector := List String

abbrev DoubleVector := List Double

/-- A contiguous run of doubles in memory: where it starts and what it holds. -/
structure Storage where
  addr : Nat
  cells : List Double
  deriving DecidableEq, Repr

/-- A `const double*`: null, the data pointer of a NumPy array (`PyArray_DATA`),
or `data()` of a `DoubleVector` with the given contents. -/
inductive DataPtr where
  | null
  | arrayData (storage : Storage)
  | vectorData (contents : DoubleVector)
  deriving DecidableEq, Repr

/-- The `std::stringstream` used for diagnostics. -/
structure StringStream where
  writes : List String
  deriving DecidableEq, Repr

/-- One output statement `stream << text;`. -/
def StringStream.put (stream : StringStream) (text : String) : StringStream :=
  ⟨stream.writes ++ [text]⟩

/-- The accumulated text, `stream.str()`. -/
def StringStream.str (stream : StringStream) : String :=
  String.join stream.writes

/-! ## Host objects -/

/-- NumPy's type number for `double` (`NPY_DOUBLE` in `ndarraytypes.h`). -/
def NPY_DOUBLE : Int := 12

/-- Product of the non-zero entries of a shape. -/
def nonzeroProduct (shape : List Nat) : Nat :=
  (shape.filter (fun n => n != 0)).prod

/-- The header of a NumPy array as this file reads it: `descr->type_num`,
`dimensions[0..nd)` and the data pointer; `nd` is the length of `dimensions`.
NumPy refuses to create an array whose non-zero dimension sizes multiply to more
than `npy_intp` can hold ("array is too big"), which is `size_fits`. -/
structure PyArrayObject where
  type_num : Int
  dimensions : List Nat
  data : Storage
  size_fits : nonzeroProduct dimensions < 2 ^ 63

/-- The field `nd`, an `int`. -/
def PyArrayObject.nd (matrix : PyArrayObject) : Int := matrix.dimensions.length

/-- A Python `str` object, seen through `PyUnicode_AsUTF8AndSize`: `none` when
the UTF-8 form cannot be produced. -/
structure PyUnicode where
  utf8 : Option String
  deriving DecidableEq, Repr

/-- A Python object, given by the results of the C-API calls made on it:
`str` is `PyObject_Str` (`none`: it returned null), `float` is
`PyFloat_AsDouble` (`none`: an error was raised), `list` is `PySequence_List`
(`none`: not iterable), `array` is the array header when `PyArray_Check`
holds. -/
inductive PyObject where
  | mk (str : Option PyUnicode) (float : Option Double)
      (list : Option (List PyObject)) (array : Option PyArrayObject)

def PyObject_Str : PyObject → Option PyUnicode
  | .mk str _ _ _ => str

def PyUnicode_AsUTF8AndSize (str : PyUnicode) : Option String := str.utf8

def PyFloat_AsDouble : PyObject → Option Double
  | .mk _ float _ _ => float

def PySequence_List : PyObject → Option (List PyObject)
  | .mk _ _ list _ => list

def PyArray_Check : PyObject → Bool
  | .mk _ _ _ array => array.isSome

/-- The cast `reinterpret_cast<PyArrayObject*>`, meaningful when `PyArray_Check` holds. -/
def asPyArrayObject : PyObject → Option PyArrayObject
  | .mk _ _ _ array => array

/-! ## The element-appending helpers (lines 15-34 and 65-74) -/

def appendStrVector (append_me : PyObject) (to_me : StrVector) : Bool × StrVector :=
  let ok := false
  match PyObject_Str append_me with
  | some str =>
    match PyUnicode_AsUTF8AndSize str with
    | some utf8 => (ok, to_me ++ [utf8])
    | none => (ok, to_me)
  | none => (ok, to_me)

def appendDoubleVector (append_me : PyObject) (to_me : DoubleVector) : Bool × DoubleVector :=
  let ok := false
  match PyFloat_AsDouble append_me with
  | none => (false, to_me)
  | some float_val => (ok, to_me ++ [float_val])

/-- The two helpers the collectors call for each element.  The collectors and
`constructTreeWith` take them as a parameter; the program itself is the
instance `sourceHelpers`. -/
structure Helpers where
  appendStrVector : PyObject → StrVector → Bool × StrVector
  appendDoubleVector : PyObject → DoubleVector → Bool × DoubleVector

def sourceHelpers : Helpers := ⟨appendStrVector, appendDoubleVector⟩

/-! ## isVectorOfString (lines 36-63) -/

/-- The loop of lines 48-60: `remaining` iterations are left, `i` is the index. -/
def isVectorOfStringLoop (append : PyObject → StrVector → Bool × StrVector)
    (vector_name : String) (seq : List PyObject) :
    Nat → Nat → StrVector → StringStream → Bool × StrVector × StringStream
  | 0, _, sequences, complaint => (true, sequences, complaint)
  | remaining + 1, i, sequences, complaint =>
    match seq[i]? with
    | none =>
      (false, sequences,
        complaint.put (vector_name ++ " could not access item " ++ toString i ++ "."))
    | some item =>
      if !(append item sequences).1 then
        (false, (append item sequences).2,
          complaint.put
            (vector_name ++ " could not convert item " ++ toString i ++ " to string."))
      else
        isVectorOfStringLoop append vector_name seq remaining (i + 1)
          (append item sequences).2 complaint

def isVectorOfStringWith (append : PyObject → StrVector → Bool × StrVector)
    (vector_name : String) (sequence_arg : Option PyObject)
    (sequences : StrVector) (complaint : StringStream) :
    Bool × StrVector × StringStream :=
  match sequence_arg with
  | none => (false, sequences, complaint.put (vector_name ++ " was not supplied."))
  | some arg =>
    match PySequence_List arg with
    | none => (false, sequences, complaint.put (vector_name ++ " is not a sequence."))
    | some seq =>
      let number_of_sequences : Int := toInt32 seq.length
      isVectorOfStringLoop append vector_name seq number_of_sequences.toNat 0
        sequences complaint

def isVectorOfString (vector_name : String) (sequence_arg : Option PyObject)
    (sequences : StrVector) (complaint : StringStream) :
    Bool × StrVector × StringStream :=
  isVectorOfStringWith appendStrVector vector_name sequence_arg sequences complaint

/-! ## isVectorOfDouble (lines 76-110) -/

/-- The loop of lines 91-103. -/
def isVectorOfDoubleLoop (append : PyObject → DoubleVector → Bool × DoubleVector)
    (vector_name : String) (seq : List PyObject) :
    Nat → Nat → DoubleVector → StringStream → Bool × DoubleVector × StringStream
  | 0, _, doubles, complaint => (true, doubles, complaint)
  | remaining + 1, i, doubles, complaint =>
    match seq[i]? with
    | none =>
      (false, doubles,
        complaint.put (vector_name ++ " could not access item " ++ toString i ++ "."))
    | some item =>
      if !(append item doubles).1 then
        (false, (append item doubles).2,
          complaint.put
            (vector_name ++ " could not convert item " ++ toString i ++ " to string."))
      else
        isVectorOfDoubleLoop append vector_name seq remaining (i + 1)
          (append item doubles).2 complaint

/-- Result: return value, `doubles`, `element_data`, `element_count`, `complaint`. -/
def isVectorOfDoubleWith (append : PyObject → DoubleVector → Bool × DoubleVector)
    (vector_name : String) (vector_arg : Option PyObject) (doubles : DoubleVector)
    (element_data : DataPtr) (element_count : Int) (complaint : StringStream) :
    Bool × DoubleVector × DataPtr × Int × StringStream :=
  let element_data : DataPtr := .null
  let element_count : Int := 0
  match vector_arg with
  | none =>
    (false, doubles, element_data, element_count,
      complaint.put (vector_name ++ " was not supplied."))
  | some arg =>
    match PySequence_List arg with
    | none =>
      (false, doubles, element_data, element_count,
        complaint.put (vector_name ++ " is not a sequence."))
    | some seq =>
      let number_of_sequences : Int := toInt32 seq.length
      match isVectorOfDoubleLoop append vector_name seq number_of_sequences.toNat 0
          doubles complaint with
      | (false, doubles, complaint) =>
        (false, doubles, element_data, element_count, complaint)
      | (true, doubles, complaint) =>
        (true, doubles, .vectorData doubles, toIntptr doubles.length, complaint)

def isVectorOfDouble (vector_name : String) (vector_arg : Option PyObject)
    (doubles : DoubleVector) (element_data : DataPtr) (element_count : Int)
    (complaint : StringStream) :
    Bool × DoubleVector × DataPtr × Int × StringStream :=
  isVectorOfDoubleWith appendDoubleVector vector_name vector_arg doubles
    element_data element_count complaint

/-! ## isMatrix and isMatrixOfDouble (lines 112-146) -/

def isMatrix (arg : PyObject) : Bool := PyArray_Check arg

/-- The loop of lines 141-143, `element_count *= matrix->dimensions[d]` in `intptr_t`. -/
def multiplyDimensions (dimensions : List Nat) (element_count : Int) : Int :=
  dimensions.foldl (fun count size => toIntptr (count * size)) element_count

/-- Result: return value, `element_data`, `element_count`, `complaint`. -/
def isMatrixOfDouble (matrix_name : String) (possible_matrix : PyObject)
    (element_data : DataPtr) (element_count : Int) (complaint : StringStream) :
    Bool × DataPtr × Int × StringStream :=
  let element_count : Int := 0
  match asPyArrayObject possible_matrix with
  | none =>
    (false, element_data, element_count,
      complaint.put (matrix_name ++ " matrix" ++ " is not a matrix of type Float"))
  | some matrix =>
    if matrix.type_num ≠ NPY_DOUBLE then
      (false, element_data, element_count,
        complaint.put (matrix_name ++ " matrix" ++ " is not a matrix of type Float"))
    else
      let dimensions := matrix.nd
      if dimensions < 1 ∨ 2 < dimensions then
        (false, element_data, element_count,
          complaint.put (matrix_name ++ "matrix" ++ " has " ++ toString dimensions
            ++ " dimensions" ++ " (only 1 and 2 dimensional matrices are allowed)."))
      else
        let element_count : Int := 1
        (true, .arrayData matrix.data, multiplyDimensions matrix.dimensions element_count,
          complaint)

/-! ## Process-wide state and the collaborators -/

/-- A tree builder as this file uses it (`StartTree::BuilderInterface`,
declared in `starttree.h`): its silent flag, set by `beSilent()`, and
`constructTreeStringInMemory`, which is given the flag, the OpenMP thread
setting, the labels and the distance pointer and yields its return value and
the text it leaves in `tree_string` (empty on entry). -/
structure BuilderInterface where
  silent : Bool
  constructTreeStringInMemory : Bool → Int → StrVector → DataPtr → Bool × String

/-- The state that outlives a call: the registry of builders
(`StartTree::Factory`, a lookup by name), whether the build has `_OPENMP`, and
OpenMP's thread setting (read by `omp_get_max_threads`, written by
`omp_set_num_threads`). -/
structure World where
  factory : String → Option BuilderInterface
  openmp : Bool
  nthreads_var : Int

def World.getTreeBuilderByName (world : World) (name : String) : Option BuilderInterface :=
  world.factory name

def omp_get_max_threads (world : World) : Int := world.nthreads_var

def omp_set_num_threads (number_of_threads : Int) (world : World) : World :=
  { world with nthreads_var := number_of_threads }

/-- The call `algorithm->beSilent()` on the builder registered under `name`. -/
def World.beSilent (world : World) (name : String) : World :=
  { world with
    factory := fun key =>
      if key = name then (world.factory key).map (fun builder => { builder with silent := true })
      else world.factory key }

/-! ## obeyThreadCount (lines 148-164) -/

def obeyThreadCount (number_of_threads : Int) (complaint : StringStream) (world : World) :
    Bool × StringStream × World :=
  if world.openmp then
    if 0 < number_of_threads then
      let maxThreadCount := omp_get_max_threads world
      if maxThreadCount < number_of_threads then
        (true, complaint, world)
      else
        (true, complaint, omp_set_num_threads number_of_threads world)
    else
      (true, complaint, world)
  else
    (true, complaint, world)

/-! ## pydecenttree_constructTree (lines 166-264) -/

/-- The local variables that the argument parse is to fill (lines 174-181), as
the body of lines 192-263 reads them. -/
structure Args where
  algorithm_name : Option String
  sequence_arg : Option PyObject
  distance_arg : Option PyObject
  number_of_threads : Int
  precision : Int
  verbosity : Int

/-- What the caller gets: a raised `TypeError` with its message, or a text. -/
inductive PyResult where
  | typeError (message : String)
  | unicode (text : String)
  deriving DecidableEq, Repr

/-- A call made by `pydecenttree_constructTree`.  The builder's call is logged
with the labels and the distance pointer it was given and with what it
returned: its return value and the text it left in `tree_string`. -/
inductive Call where
  | isVectorOfString
  | isMatrixOfDouble
  | isVectorOfDouble
  | obeyThreadCount (number_of_threads : Int)
  | beSilent
  | constructTreeStringInMemory (sequences : StrVector) (distance_data : DataPtr)
      (returned : Bool × String)
  deriving DecidableEq, Repr

/-- A call of one of the three readers of the arguments. -/
def Call.isReader : Call → Bool
  | .isVectorOfString => true
  | .isMatrixOfDouble => true
  | .isVectorOfDouble => true
  | _ => false

/-- The end of a call: the value returned, the diagnostic stream as it was at
the return, the state left behind, and the calls made, in order. -/
structure Outcome where
  result : PyResult
  complaint : StringStream
  world : World
  trace : List Call

/-- Lines 252-263. -/
def marshal (tree_string : String) (complaint : StringStream) (world : World)
    (trace : List Call) : Outcome :=
  if tree_string = "" then
    ⟨.typeError complaint.str, complaint, world, trace⟩
  else
    ⟨.unicode tree_string, complaint, world, trace⟩

/-- Lines 240-250 followed by 252-263: the branch that invokes the builder. -/
def invoke (algorithm_name : String) (algorithm : BuilderInterface) (verbosity : Int)
    (sequences : StrVector) (distance_data : DataPtr) (complaint : StringStream)
    (world : World) (trace : List Call) : Outcome :=
  let silenced : Bool := decide (verbosity = 0)
  let world := if silenced then world.beSilent algorithm_name else world
  let trace := if silenced then trace ++ [.beSilent] else trace
  let returned := algorithm.constructTreeStringInMemory (silenced || algorithm.silent)
    world.nthreads_var sequences distance_data
  let trace := trace ++ [.constructTreeStringInMemory sequences distance_data returned]
  if !returned.1 then
    marshal ""
      (complaint.put ("Call to constructTreeStringInMemory failed "
        ++ " for algorithm " ++ algorithm_name ++ "."))
      world trace
  else
    marshal returned.2 complaint world trace

/-- Lines 224-250 followed by 252-263: the rest of the chain, from the call of
`isVectorOfDouble` on.  `distance_data` and `distance_entries` are as the
matrix reader left them, `trace` holds the calls made so far. -/
def collectDistancesAndInvoke (helpers : Helpers) (algorithm_name : String)
    (algorithm : BuilderInterface) (args : Args) (sequences : StrVector)
    (distance_arg : PyObject) (distance_data : DataPtr) (distance_entries : Int)
    (complaint : StringStream) (world : World) (trace : List Call) : Outcome :=
  match isVectorOfDoubleWith helpers.appendDoubleVector "distance" (some distance_arg)
      [] distance_data distance_entries complaint with
  | (false, _, _, _, complaint) => marshal "" complaint world (trace ++ [.isVectorOfDouble])
  | (true, _, distance_data, distance_entries, complaint) =>
    if toSizeT distance_entries ≠ (sequences.length * sequences.length) % 2 ^ 64 then
      marshal ""
        (complaint.put ("There are " ++ toString sequences.length ++ " sequences"
          ++ " but the distance matrix"
          ++ " contains " ++ toString distance_entries ++ " elements"
          ++ " (should be "
          ++ toString ((sequences.length * sequences.length) % 2 ^ 64) ++ ")."))
        world (trace ++ [.isVectorOfDouble])
    else
      match obeyThreadCount args.number_of_threads complaint world with
      | (false, complaint, world) =>
        marshal "" complaint world
          (trace ++ [.isVectorOfDouble, .obeyThreadCount args.number_of_threads])
      | (true, complaint, world) =>
        invoke algorithm_name algorithm args.verbosity sequences distance_data
          complaint world
          (trace ++ [.isVectorOfDouble, .obeyThreadCount args.number_of_threads])

/-- Lines 209-223, continued by `collectDistancesAndInvoke`: the chain entered
once the builder is found. -/
def validateAndInvoke (helpers : Helpers) (algorithm_name : String)
    (algorithm : BuilderInterface) (args : Args) (complaint : StringStream)
    (world : World) : Outcome :=
  match args.distance_arg with
  | none => marshal "" (complaint.put "No distances were supplied") world []
  | some distance_arg =>
    match isVectorOfStringWith helpers.appendStrVector "sequencenames" args.sequence_arg
        [] complaint with
    | (false, _, complaint) => marshal "" complaint world [.isVectorOfString]
    | (true, sequences, complaint) =>
      if sequences.length < 3 then
        marshal ""
          (complaint.put ("sequencenames contains only " ++ toString sequences.length
            ++ " sequences (must have at least 3)."))
          world [.isVectorOfString]
      else if isMatrix distance_arg then
        -- `isMatrix(distance_arg) && !isMatrixOfDouble(...)`: the reader runs only on an array
        match isMatrixOfDouble "distance" distance_arg .null 0 complaint with
        | (false, _, _, complaint) =>
          marshal "" complaint world [.isVectorOfString, .isMatrixOfDouble]
        | (true, distance_data, distance_entries, complaint) =>
          collectDistancesAndInvoke helpers algorithm_name algorithm args sequences
            distance_arg distance_data distance_entries complaint world
            [.isVectorOfString, .isMatrixOfDouble]
      else
        collectDistancesAndInvoke helpers algorithm_name algorithm args sequences
          distance_arg .null 0 complaint world [.isVectorOfString]

/-- The body of `pydecenttree_constructTree` from line 192 on, with the two
element-appending helpers as a parameter.  `algorithm` is null exactly when the
name is null or the registry does not know it (lines 194-199), which gives the
three cases of lines 204-208. -/
def constructTreeWith (helpers : Helpers) (world : World) (args : Args) : Outcome :=
  let complaint := (StringStream.mk []).put "Error: "
  match args.algorithm_name with
  | none => marshal "" (complaint.put "Algorithm name not specified") world []
  | some algorithm_name =>
    match world.getTreeBuilderByName algorithm_name with
    | none =>
      marshal "" (complaint.put ("Algorithm " ++ algorithm_name ++ " not found.")) world []
    | some algorithm =>
      validateAndInvoke helpers algorithm_name algorithm args complaint world

/-- Lines 192-263 of the source, run on given values of the locals:
`constructTreeWith` with the source's helpers. -/
def constructTreeBody (world : World) (args : Args) : Outcome :=
  constructTreeWith sourceHelpers world args

/-! ## The argument parse (lines 169-191) and the whole function -/

/-- An argument of a Python call, with what the parser's conversions make of
it: `asCString` is the result of the unit `s` (the text of a `str` free of NUL,
`none` for any other object), `asInt` that of the unit `i` (the value of an
integer that fits an `int`, `none` otherwise). -/
structure PyArgument where
  object : PyObject
  asCString : Option String
  asInt : Option Int

/-- A Python call: the arguments bound to the names of `argument_names`, in that
order, positional and keyword arguments merged as the parser merges them.  A call
that leaves names unbound is a list of fewer than six arguments. -/
abbrev PyCall := List PyArgument

/-- Lines 169-173. -/
def argument_names : List String :=
  ["algorithm", "sequences", "distances", "number_of_threads", "precision", "verbosity"]

/-- A unit of a format string: `s` (a text, stored through one pointer), `O!`
(an object of a given type: a pointer to the type object, then the pointer to
store through) and `i` (an `int`, stored through one pointer). -/
inductive FormatUnit where
  | text
  | checkedObject
  | int
  deriving DecidableEq, Repr

/-- The format string of line 184, `"sO!O!iii"`.  It has no `|`: all six
arguments are required. -/
def formatUnits : List FormatUnit :=
  [.text, .checkedObject, .checkedObject, .int, .int, .int]

/-- The address of a local variable of the call. -/
inductive LocalAddress where
  | algorithm_name
  | sequence_arg
  | distance_arg
  | number_of_threads
  | precision
  deriving DecidableEq, Repr

/-- The pointers passed after `argument_names` (lines 186-188): five, where the
format takes eight. -/
def passedPointers : List LocalAddress :=
  [.algorithm_name, .sequence_arg, .distance_arg, .number_of_threads, .precision]

/-- The type test of the unit `O!`, which reads its first pointer as a type
object and asks whether the argument is an instance of it.  The pointers passed
are addresses of locals of the running call, and the type of an object is none of
those: the test fails. -/
def PyObject_TypeCheck (object : PyObject) (type : LocalAddress) : Bool := false

/-- A converted value, as a unit stores it. -/
inductive Converted where
  | text (value : String)
  | object (value : PyObject)
  | int (value : Int)

/-- The store of a converted value through a pointer: `none` where the pointer
is that of a local of another type. -/
def store : LocalAddress → Converted → Args → Option Args
  | .algorithm_name, .text value, locals => some { locals with algorithm_name := some value }
  | .sequence_arg, .object value, locals => some { locals with sequence_arg := some value }
  | .distance_arg, .object value, locals => some { locals with distance_arg := some value }
  | .number_of_threads, .int value, locals => some { locals with number_of_threads := value }
  | .precision, .int value, locals => some { locals with precision := value }
  | _, _, _ => none

/-- The conversion of the arguments, unit by unit: each unit takes its pointers
from those left and its argument from those left; the parse fails at the first
unit whose conversion fails.  The last case is a unit left without an argument
or without a pointer.  `typeCheck` is the type test that the unit `O!` applies. -/
def convertArguments (typeCheck : PyObject → LocalAddress → Bool) :
    List FormatUnit → List LocalAddress → List PyArgument → Args → Option Args
  | [], _, _, locals => some locals
  | .text :: units, pointer :: pointers, argument :: arguments, locals =>
    match argument.asCString with
    | none => none
    | some value =>
      match store pointer (.text value) locals with
      | none => none
      | some locals => convertArguments typeCheck units pointers arguments locals
  | .checkedObject :: units, type :: pointer :: pointers, argument :: arguments, locals =>
    if typeCheck argument.object type then
      match store pointer (.object argument.object) locals with
      | none => none
      | some locals => convertArguments typeCheck units pointers arguments locals
    else
      none
  | .int :: units, pointer :: pointers, argument :: arguments, locals =>
    match argument.asInt with
    | none => none
    | some value =>
      match store pointer (.int value) locals with
      | none => none
      | some locals => convertArguments typeCheck units pointers arguments locals
  | _, _, _, _ => none

/-- The locals as lines 174-181 initialise them. -/
def initialLocals : Args := ⟨none, none, none, 0, 6, 0⟩

/-- The call of lines 184-188: the locals after a successful parse, `none` when
the parser reports failure. -/
def PyArg_ParseTupleAndKeywords (call : PyCall) : Option Args :=
  if call.length = argument_names.length then
    convertArguments PyObject_TypeCheck formatUnits passedPointers call initialLocals
  else
    none

/-- What the function returns: `NULL` from line 190, with the exception the
parser has set, or the end of the body. -/
inductive Returned where
  | parseFailed
  | finished (outcome : Outcome)

/-- The calls made. -/
def Returned.trace : Returned → List Call
  | .parseFailed => []
  | .finished outcome => outcome.trace

/-- The state left behind by a call entered in state `before`. -/
def Returned.worldAfter (before : World) : Returned → World
  | .parseFailed => before
  | .finished outcome => outcome.world

/-- The text returned, if one is. -/
def Returned.text : Returned → Option String
  | .finished ⟨.unicode text, _, _, _⟩ => some text
  | _ => none

/-- The function of the source (lines 166-264): the parse, then the body. -/
def pydecenttree_constructTree (world : World) (call : PyCall) : Returned :=
  match PyArg_ParseTupleAndKeywords call with
  | none => .parseFailed
  | some locals => .finished (constructTreeBody world locals)

/-! ## Sample inputs -/

/-- An object whose text form is `text`; it is no number, not iterable and no array. -/
def textObject (text : String) : PyObject :=
  .mk (some ⟨some text⟩) none none none

/-- A number: its text form is `text` and `PyFloat_AsDouble` gives `value`. -/
def numberObject (text : String) (value : Double) : PyObject :=
  .mk (some ⟨some text⟩) (some value) none none

/-- A list holding `items`. -/
def listObject (items : List PyObject) : PyObject :=
  .mk (some ⟨some "[...]"⟩) none (some items) none

/-- A NumPy array with the given header; iterating over it gives `items`. -/
def arrayObject (header : PyArrayObject) (items : List PyObject) : PyObject :=
  .mk (some ⟨some "array(...)"⟩) none (some items) (some header)

/-- The doubles 0.0, 1.0, 2.0 and 3.0. -/
def double0 : Double := ⟨0⟩

def double1 : Double := ⟨0x3FF0000000000000⟩

def double2 : Double := ⟨0x4000000000000000⟩

def double3 : Double := ⟨0x4008000000000000⟩

def number0 : PyObject := numberObject "0" double0

def number1 : PyObject := numberObject "1" double1

def number2 : PyObject := numberObject "2" double2

def number3 : PyObject := numberObject "3" double3

/-- The labels `["A","B","C"]`. -/
def labelsABC : PyObject := listObject [textObject "A", textObject "B", textObject "C"]

/-- The distances `[0,1,2,1,0,3,2,3,0]` as a list of numbers. -/
def distances3x3 : PyObject :=
  listObject [number0, number1, number2, number1, number0, number3, number2, number3, number0]

/-- A builder that succeeds with a fixed tree text. -/
def fixedTreeBuilder : BuilderInterface :=
  ⟨false, fun _ _ _ _ => (true, "(A,B,C);")⟩

/-- A builder that fails after writing some text. -/
def failingBuilder : BuilderInterface :=
  ⟨false, fun _ _ _ _ => (false, "(A,")⟩

/-- A state whose registry knows `NJ` (succeeding) and `BAD` (failing), built with OpenMP. -/
def sampleWorld : World :=
  ⟨fun name =>
      if name = "NJ" then some fixedTreeBuilder
      else if name = "BAD" then some failingBuilder else none,
    true, 4⟩

/-- A call with the default options `number_of_threads=0, precision=6, verbosity=0`. -/
def callWith (algorithm_name : Option String) (sequence_arg distance_arg : Option PyObject) :
    Args :=
  ⟨algorithm_name, sequence_arg, distance_arg, 0, 6, 0⟩

/-- The call `constructTree("NJ", ["A","B","C"], [0,1,2,1,0,3,2,3,0], 0, 6, 0)`. -/
def sampleArgs : Args := callWith (some "NJ") (some labelsABC) (some distances3x3)

/-- A 1-dimensional `double` array holding `[0.0, 1.0]`. -/
def doubleVector2 : PyArrayObject :=
  ⟨NPY_DOUBLE, [2], ⟨4096, [double0, double1]⟩, by decide⟩

/-- A 3 x 3 `double` array. -/
def doubleMatrix3x3 : PyArrayObject :=
  ⟨NPY_DOUBLE, [3, 3],
    ⟨8192, [double0, double1, double2, double1, double0, double3, double2, double3, double0]⟩,
    by decide⟩

/-- A 2 x 1 x 1 `double` array. -/
def doubleCube : PyArrayObject :=
  ⟨NPY_DOUBLE, [2, 1, 1], ⟨12288, [double0, double1]⟩, by decide⟩

/-- A 0-dimensional `double` array. -/
def doubleScalarArray : PyArrayObject :=
  ⟨NPY_DOUBLE, [], ⟨16384, [double1]⟩, by decide⟩

/-- A 1-dimensional array of 64-bit integers (`NPY_LONG` is 7). -/
def longVector2 : PyArrayObject :=
  ⟨7, [2], ⟨20480, [⟨0⟩, ⟨1⟩]⟩, by decide⟩

/-- Helpers that report success when they have appended the element.  They are
inputs for `constructTreeWith`, used to reach the branches that the source's
helpers never reach. -/
def reportingHelpers : Helpers :=
  ⟨fun append_me to_me =>
      (((PyObject_Str append_me).bind PyUnicode_AsUTF8AndSize).isSome,
        (appendStrVector append_me to_me).2),
    fun append_me to_me =>
      ((PyFloat_AsDouble append_me).isSome, (appendDoubleVector append_me to_me).2)⟩

/-! ## More sample inputs -/

/-- A 1-dimensional `double` array holding the nine distances. -/
def doubleVector9 : PyArrayObject :=
  ⟨NPY_DOUBLE, [9],
    ⟨24576, [double0, double1, double2, double1, double0, double3, double2, double3, double0]⟩,
    by decide⟩

/-- The nine distances as a 1-dimensional `double` array; iterating over such an
array gives its elements as numbers. -/
def distancesArray9 : PyObject :=
  arrayObject doubleVector9
    [number0, number1, number2, number1, number0, number3, number2, number3, number0]

/-- Row `index` of the 3 x 3 array: a 1-dimensional view of three doubles, which
`PyFloat_AsDouble` does not accept. -/
def matrixRow (index : Nat) (cells : List Double) (items : List PyObject) : PyObject :=
  arrayObject ⟨NPY_DOUBLE, [3], ⟨8192 + 24 * index, cells⟩, by decide⟩ items

/-- The nine distances as a 3 x 3 `double` array; iterating over a 2-dimensional
array gives its rows. -/
def distancesMatrix3x3 : PyObject :=
  arrayObject doubleMatrix3x3
    [matrixRow 0 [double0, double1, double2] [number0, number1, number2],
      matrixRow 1 [double1, double0, double3] [number1, number0, number3],
      matrixRow 2 [double2, double3, double0] [number2, number3, number0]]

/-- An object whose text form cannot be produced (`PyObject_Str` fails). -/
def unprintableObject : PyObject := .mk none none none none

/-- The double 6.0. -/
def double6 : Double := ⟨0x4018000000000000⟩

/-- An argument that is the `str` `text`. -/
def textArgument (text : String) : PyArgument := ⟨textObject text, some text, none⟩

/-- An argument that is neither a `str` nor an integer. -/
def objectArgument (object : PyObject) : PyArgument := ⟨object, none, none⟩

/-- An argument that is the integer `value`, with its text form and its value
as a double. -/
def intArgument (text : String) (value : Int) (float : Double) : PyArgument :=
  ⟨numberObject text float, none, some value⟩

/-- The Python call `constructTree(algorithm, sequences, distances, 0, 6, 0)`. -/
def pythonCall (algorithm : String) (sequences distances : PyObject) : PyCall :=
  [textArgument algorithm, objectArgument sequences, objectArgument distances,
    intArgument "0" 0 double0, intArgument "6" 6 double6, intArgument "0" 0 double0]

/-- The Python call `constructTree("NJ", ["A","B","C"], [0,1,2,1,0,3,2,3,0], 0, 6, 0)`. -/
def sampleCall : PyCall := pythonCall "NJ" labelsABC distances3x3

/-! ## Texts and streams -/

theorem length_pos_of_append_right (a b : String) (h : 0 < b.length) : 0 < (a ++ b).length := by
  rw [String.length_append]; omega

theorem length_pos_of_append_left (a b : String) (h : 0 < a.length) : 0 < (a ++ b).length := by
  rw [String.length_append]; omega

theorem ne_empty_of_length_pos (text : String) (h : 0 < text.length) : text ≠ "" := by
  intro hempty
  rw [hempty] at h
  exact absurd h (by decide)

theorem str_of_two_writes (text : String) :
    (StringStream.mk ["Error: ", text]).str = "Error: " ++ text := by
  simp [StringStream.str, String.join]

theorem put_after_start (text : String) :
    ((StringStream.mk []).put "Error: ").put text = ⟨["Error: ", text]⟩ := by
  simp [StringStream.put]

theorem appendStrVector_fst (append_me : PyObject) (to_me : StrVector) :
    (appendStrVector append_me to_me).1 = false := by
  unfold appendStrVector
  cases PyObject_Str append_me with
  | none => rfl
  | some str =>
    cases h : PyUnicode_AsUTF8AndSize str <;> simp [h]

theorem appendDoubleVector_fst (append_me : PyObject) (to_me : DoubleVector) :
    (appendDoubleVector append_me to_me).1 = false := by
  unfold appendDoubleVector
  cases PyFloat_AsDouble append_me <;> rfl

/-! ## The collectors write a complaint exactly when they fail -/

theorem isVectorOfStringLoop_complaint (append : PyObject → StrVector → Bool × StrVector)
    (vector_name : String) (seq : List PyObject) :
    ∀ (remaining i : Nat) (sequences : StrVector) (complaint : StringStream),
      ((isVectorOfStringLoop append vector_name seq remaining i sequences complaint).1 = true ∧
        (isVectorOfStringLoop append vector_name seq remaining i sequences complaint).2.2
          = complaint) ∨
      ((isVectorOfStringLoop append vector_name seq remaining i sequences complaint).1 = false ∧
        ∃ text, 0 < text.length ∧
          (isVectorOfStringLoop append vector_name seq remaining i sequences complaint).2.2
            = complaint.put text) := by
  intro remaining
  induction remaining with
  | zero => intro i sequences complaint; left; simp [isVectorOfStringLoop]
  | succ remaining ih =>
    intro i sequences complaint
    unfold isVectorOfStringLoop
    cases hitem : seq[i]? with
    | none =>
      right
      exact ⟨rfl, _, length_pos_of_append_right _ "." (by decide), rfl⟩
    | some item =>
      cases hok : (append item sequences).1 with
      | true =>
        simp only [hok, Bool.not_true, Bool.false_eq_true, if_false]
        exact ih (i + 1) (append item sequences).2 complaint
      | false =>
        right
        simp only [hok, Bool.not_false, if_true]
        exact ⟨trivial, _, length_pos_of_append_right _ " to string." (by decide), rfl⟩

theorem isVectorOfStringWith_complaint (append : PyObject → StrVector → Bool × StrVector)
    (vector_name : String) (sequence_arg : Option PyObject) (sequences : StrVector)
    (complaint : StringStream) :
    ((isVectorOfStringWith append vector_name sequence_arg sequences complaint).1 = true ∧
      (isVectorOfStringWith append vector_name sequence_arg sequences complaint).2.2
        = complaint) ∨
    ((isVectorOfStringWith append vector_name sequence_arg sequences complaint).1 = false ∧
      ∃ text, 0 < text.length ∧
        (isVectorOfStringWith append vector_name sequence_arg sequences complaint).2.2
          = complaint.put text) := by
  unfold isVectorOfStringWith
  cases sequence_arg with
  | none =>
    right
    exact ⟨rfl, _, length_pos_of_append_right _ " was not supplied." (by decide), rfl⟩
  | some arg =>
    cases hlist : PySequence_List arg with
    | none =>
      right
      simp only [hlist]
      exact ⟨trivial, _, length_pos_of_append_right _ " is not a sequence." (by decide), rfl⟩
    | some seq =>
      simp only [hlist]
      exact isVectorOfStringLoop_complaint append vector_name seq _ 0 sequences complaint

theorem isVectorOfDoubleLoop_complaint (append : PyObject → DoubleVector → Bool × DoubleVector)
    (vector_name : String) (seq : List PyObject) :
    ∀ (remaining i : Nat) (doubles : DoubleVector) (complaint : StringStream),
      ((isVectorOfDoubleLoop append vector_name seq remaining i doubles complaint).1 = true ∧
        (isVectorOfDoubleLoop append vector_name seq remaining i doubles complaint).2.2
          = complaint) ∨
      ((isVectorOfDoubleLoop append vector_name seq remaining i doubles complaint).1 = false ∧
        ∃ text, 0 < text.length ∧
          (isVectorOfDoubleLoop append vector_name seq remaining i doubles complaint).2.2
            = complaint.put text) := by
  intro remaining
  induction remaining with
  | zero => intro i doubles complaint; left; simp [isVectorOfDoubleLoop]
  | succ remaining ih =>
    intro i doubles complaint
    unfold isVectorOfDoubleLoop
    cases hitem : seq[i]? with
    | none =>
      right
      exact ⟨rfl, _, length_pos_of_append_right _ "." (by decide), rfl⟩
    | some item =>
      cases hok : (append item doubles).1 with
      | true =>
        simp only [hok, Bool.not_true, Bool.false_eq_true, if_false]
        exact ih (i + 1) (append item doubles).2 complaint
      | false =>
        right
        simp only [hok, Bool.not_false, if_true]
        exact ⟨trivial, _, length_pos_of_append_right _ " to string." (by decide), rfl⟩

/-- What `isVectorOfDouble` leaves behind: on success the complaint is untouched
and the pointer and count describe the vector; on failure one non-empty
complaint was written, the pointer is null and the count is 0. -/
theorem isVectorOfDoubleWith_result (append : PyObject → DoubleVector → Bool × DoubleVector)
    (vector_name : String) (vector_arg : Option PyObject) (doubles : DoubleVector)
    (element_data : DataPtr) (element_count : Int) (complaint : StringStream) :
    (∃ filled, isVectorOfDoubleWith append vector_name vector_arg doubles element_data
        element_count complaint
        = (true, filled, .vectorData filled, toIntptr filled.length, complaint)) ∨
    (∃ filled text, 0 < text.length ∧
      isVectorOfDoubleWith append vector_name vector_arg doubles element_data
        element_count complaint
        = (false, filled, .null, 0, complaint.put text)) := by
  unfold isVectorOfDoubleWith
  cases vector_arg with
  | none =>
    right
    exact ⟨_, _, length_pos_of_append_right _ " was not supplied." (by decide), rfl⟩
  | some arg =>
    cases hlist : PySequence_List arg with
    | none =>
      right
      simp only [hlist]
      exact ⟨_, _, length_pos_of_append_right _ " is not a sequence." (by decide), rfl⟩
    | some seq =>
      simp only [hlist]
      have hloop := isVectorOfDoubleLoop_complaint append vector_name seq
        (toInt32 seq.length).toNat 0 doubles complaint
      rcases hr : isVectorOfDoubleLoop append vector_name seq (toInt32 seq.length).toNat 0
        doubles complaint with ⟨ok, filled, written⟩
      rw [hr] at hloop
      rcases hloop with ⟨hok, hsame⟩ | ⟨hok, text, htext, hput⟩
      · left
        simp only at hok hsame
        subst hok; subst hsame
        exact ⟨filled, rfl⟩
      · right
        simp only at hok hput
        subst hok; subst hput
        exact ⟨filled, text, htext, rfl⟩

/-- What `isMatrixOfDouble` leaves behind on failure. -/
theorem isMatrixOfDouble_result (matrix_name : String) (possible_matrix : PyObject)
    (element_data : DataPtr) (element_count : Int) (complaint : StringStream) :
    (∃ matrix, asPyArrayObject possible_matrix = some matrix ∧
      isMatrixOfDouble matrix_name possible_matrix element_data element_count complaint
        = (true, .arrayData matrix.data, multiplyDimensions matrix.dimensions 1, complaint)) ∨
    (∃ text, 0 < text.length ∧
      isMatrixOfDouble matrix_name possible_matrix element_data element_count complaint
        = (false, element_data, 0, complaint.put text)) := by
  unfold isMatrixOfDouble
  cases harr : asPyArrayObject possible_matrix with
  | none =>
    right
    exact ⟨_, length_pos_of_append_right _ " is not a matrix of type Float" (by decide), rfl⟩
  | some matrix =>
    simp only
    by_cases htype : matrix.type_num ≠ NPY_DOUBLE
    · right
      rw [if_pos htype]
      exact ⟨_, length_pos_of_append_right _ " is not a matrix of type Float" (by decide), rfl⟩
    · rw [if_neg htype]
      by_cases hnd : matrix.nd < 1 ∨ 2 < matrix.nd
      · right
        rw [if_pos hnd]
        exact ⟨_, length_pos_of_append_right _
          " (only 1 and 2 dimensional matrices are allowed)." (by decide), rfl⟩
      · left
        rw [if_neg hnd]
        exact ⟨matrix, rfl, rfl⟩

/-! ## The source's helpers never report success -/

theorem isVectorOfStringLoop_source (vector_name : String) (seq : List PyObject)
    (remaining i : Nat) (sequences : StrVector) (complaint : StringStream)
    (h : (isVectorOfStringLoop appendStrVector vector_name seq remaining i sequences
      complaint).1 = true) :
    remaining = 0 := by
  cases remaining with
  | zero => rfl
  | succ remaining =>
    unfold isVectorOfStringLoop at h
    cases hitem : seq[i]? with
    | none => simp [hitem] at h
    | some item => simp [hitem, appendStrVector_fst] at h

/-- With the source's `appendStrVector`, `isVectorOfString` can only succeed
without having appended anything. -/
theorem isVectorOfString_true (vector_name : String) (sequence_arg : Option PyObject)
    (sequences : StrVector) (complaint : StringStream)
    (h : (isVectorOfString vector_name sequence_arg sequences complaint).1 = true) :
    isVectorOfString vector_name sequence_arg sequences complaint
      = (true, sequences, complaint) := by
  unfold isVectorOfString isVectorOfStringWith at h ⊢
  cases sequence_arg with
  | none => simp at h
  | some arg =>
    cases hlist : PySequence_List arg with
    | none => simp [hlist] at h
    | some seq =>
      simp only [hlist] at h ⊢
      have hzero := isVectorOfStringLoop_source vector_name seq _ 0 sequences complaint h
      rw [hzero]
      rfl

/-! ## Lines 192-263 with the source's helpers always stop at the labels -/

theorem marshal_empty (complaint : StringStream) (world : World) (trace : List Call) :
    marshal "" complaint world trace = ⟨.typeError complaint.str, complaint, world, trace⟩ := by
  unfold marshal
  rw [if_pos rfl]

/-- Past the registry lookup, the source's body ends in an error carrying
exactly one non-empty complaint, having called at most `isVectorOfString`. -/
theorem validateAndInvoke_source (algorithm_name : String) (algorithm : BuilderInterface)
    (args : Args) (world : World) :
    ∃ text trace, 0 < text.length ∧ (trace = [] ∨ trace = [Call.isVectorOfString]) ∧
      validateAndInvoke sourceHelpers algorithm_name algorithm args
          ((StringStream.mk []).put "Error: ") world
        = ⟨.typeError ("Error: " ++ text), ⟨["Error: ", text]⟩, world, trace⟩ := by
  unfold validateAndInvoke
  cases hdist : args.distance_arg with
  | none =>
    refine ⟨"No distances were supplied", [], by decide, Or.inl rfl, ?_⟩
    simp only [marshal_empty, put_after_start, str_of_two_writes]
  | some distance_arg =>
    have hlabels := isVectorOfStringWith_complaint sourceHelpers.appendStrVector
      "sequencenames" args.sequence_arg [] ((StringStream.mk []).put "Error: ")
    have htrue := isVectorOfString_true "sequencenames" args.sequence_arg []
      ((StringStream.mk []).put "Error: ")
    unfold isVectorOfString at htrue
    change (isVectorOfStringWith sourceHelpers.appendStrVector _ _ _ _).1 = true → 
      isVectorOfStringWith sourceHelpers.appendStrVector _ _ _ _ = _ at htrue
    rcases hr : isVectorOfStringWith sourceHelpers.appendStrVector "sequencenames"
      args.sequence_arg [] ((StringStream.mk []).put "Error: ") with ⟨ok, sequences, written⟩
    rw [hr] at hlabels htrue
    cases ok with
    | false =>
      rcases hlabels with ⟨hok, _⟩ | ⟨_, text, htext, hput⟩
      · exact absurd hok Bool.false_ne_true
      · simp only at hput
        subst hput
        refine ⟨text, [Call.isVectorOfString], htext, Or.inr rfl, ?_⟩
        simp only [marshal_empty, put_after_start, str_of_two_writes]
    | true =>
      have hsame := htrue rfl
      simp only [Prod.mk.injEq, true_and] at hsame
      obtain ⟨hseq, hwritten⟩ := hsame
      subst hseq; subst hwritten
      refine ⟨"sequencenames contains only " ++ toString (0 : Nat)
        ++ " sequences (must have at least 3).", [Call.isVectorOfString], by decide,
        Or.inr rfl, ?_⟩
      simp only [List.length_nil, Nat.lt_irrefl, marshal_empty, put_after_start, str_of_two_writes]
      simp

/-- Lines 192-263 of the source end, on every value of the locals, in an error
carrying exactly one non-empty complaint, leave the state as it was and call at
most `isVectorOfString`. -/
theorem constructTree_source (world : World) (args : Args) :
    ∃ text trace, 0 < text.length ∧ (trace = [] ∨ trace = [Call.isVectorOfString]) ∧
      constructTreeBody world args
        = ⟨.typeError ("Error: " ++ text), ⟨["Error: ", text]⟩, world, trace⟩ := by
  unfold constructTreeBody constructTreeWith
  cases hname : args.algorithm_name with
  | none =>
    refine ⟨"Algorithm name not specified", [], by decide, Or.inl rfl, ?_⟩
    simp only [marshal_empty, put_after_start, str_of_two_writes]
  | some algorithm_name =>
    cases hfound : world.getTreeBuilderByName algorithm_name with
    | none =>
      refine ⟨"Algorithm " ++ algorithm_name ++ " not found.", [],
        length_pos_of_append_right _ " not found." (by decide), Or.inl rfl, ?_⟩
      simp only [hfound, marshal_empty, put_after_start, str_of_two_writes]
    | some algorithm =>
      simp only [hfound]
      exact validateAndInvoke_source algorithm_name algorithm args world

/-! ## The validation chain, for any helpers -/

theorem obeyThreadCount_result (number_of_threads : Int) (complaint : StringStream)
    (world : World) :
    obeyThreadCount number_of_threads complaint world
      = (true, complaint, (obeyThreadCount number_of_threads complaint world).2.2) := by
  unfold obeyThreadCount
  by_cases hopenmp : world.openmp = true
  · by_cases hpos : 0 < number_of_threads
    · by_cases hmax : omp_get_max_threads world < number_of_threads
      · simp only [hopenmp, hpos, hmax, if_true]
      · simp only [hopenmp, hpos, hmax, if_true, if_false]
    · simp only [hopenmp, hpos, if_true, if_false]
  · simp only [hopenmp, if_false]
    rfl

/-- The two ways through lines 224-250: the chain stops with an error and one
more complaint, or the vector was read, the size check passed and the builder
is invoked. -/
theorem collectDistancesAndInvoke_cases (helpers : Helpers) (algorithm_name : String)
    (algorithm : BuilderInterface) (args : Args) (sequences : StrVector)
    (distance_arg : PyObject) (distance_data : DataPtr) (distance_entries : Int)
    (complaint : StringStream) (world : World) (trace : List Call) :
    (∃ text, 0 < text.length ∧
      collectDistancesAndInvoke helpers algorithm_name algorithm args sequences distance_arg
          distance_data distance_entries complaint world trace
        = ⟨.typeError (complaint.put text).str, complaint.put text, world,
            trace ++ [.isVectorOfDouble]⟩) ∨
    (∃ doubles,
      (isVectorOfDoubleWith helpers.appendDoubleVector "distance" (some distance_arg) []
          distance_data distance_entries complaint
        = (true, doubles, .vectorData doubles, toIntptr doubles.length, complaint)) ∧
      toSizeT (toIntptr doubles.length) = (sequences.length * sequences.length) % 2 ^ 64 ∧
      collectDistancesAndInvoke helpers algorithm_name algorithm args sequences distance_arg
          distance_data distance_entries complaint world trace
        = invoke algorithm_name algorithm args.verbosity sequences (.vectorData doubles)
            complaint (obeyThreadCount args.number_of_threads complaint world).2.2
            (trace ++ [.isVectorOfDouble, .obeyThreadCount args.number_of_threads])) := by
  unfold collectDistancesAndInvoke
  rcases isVectorOfDoubleWith_result helpers.appendDoubleVector "distance" (some distance_arg)
    [] distance_data distance_entries complaint with ⟨doubles, hread⟩ | ⟨filled, text, htext, hread⟩
  · rw [hread]
    dsimp only
    by_cases hsize : toSizeT (toIntptr doubles.length)
        ≠ (sequences.length * sequences.length) % 2 ^ 64
    · left
      rw [if_pos hsize]
      exact ⟨_, length_pos_of_append_right _ ")." (by decide), marshal_empty _ _ _⟩
    · right
      rw [if_neg hsize, obeyThreadCount_result]
      exact ⟨doubles, rfl, not_not.mp hsize, rfl⟩
  · left
    rw [hread]
    exact ⟨text, htext, marshal_empty _ _ _⟩

/-- Lines 79-80: what `element_data` and `element_count` held on entry is lost. -/
theorem isVectorOfDoubleWith_overwrites (append : PyObject → DoubleVector → Bool × DoubleVector)
    (vector_name : String) (vector_arg : Option PyObject) (doubles : DoubleVector)
    (element_data : DataPtr) (element_count : Int) (complaint : StringStream) :
    isVectorOfDoubleWith append vector_name vector_arg doubles element_data element_count
        complaint
      = isVectorOfDoubleWith append vector_name vector_arg doubles .null 0 complaint := rfl

theorem isReader_labels : ∀ call ∈ [Call.isVectorOfString], call.isReader = true := by
  decide

theorem isReader_labels_matrix :
    ∀ call ∈ [Call.isVectorOfString, Call.isMatrixOfDouble], call.isReader = true := by
  decide

/-- The two ways through lines 209-251: either the chain stops at a check, with
an error, one complaint after the prefix, the state untouched and only readers
called; or all checks pass and the builder is invoked. -/
theorem validateAndInvoke_cases (helpers : Helpers) (algorithm_name : String)
    (algorithm : BuilderInterface) (args : Args) (world : World) :
    (∃ text trace, 0 < text.length ∧ (∀ call ∈ trace, call.isReader = true) ∧
      validateAndInvoke helpers algorithm_name algorithm args
          ((StringStream.mk []).put "Error: ") world
        = ⟨.typeError ("Error: " ++ text), ⟨["Error: ", text]⟩, world, trace⟩) ∨
    (∃ distance_arg sequences doubles trace,
      args.distance_arg = some distance_arg ∧
      isVectorOfStringWith helpers.appendStrVector "sequencenames" args.sequence_arg []
          ((StringStream.mk []).put "Error: ")
        = (true, sequences, (StringStream.mk []).put "Error: ") ∧
      3 ≤ sequences.length ∧
      (isMatrix distance_arg = true →
        (isMatrixOfDouble "distance" distance_arg .null 0
          ((StringStream.mk []).put "Error: ")).1 = true) ∧
      (isVectorOfDoubleWith helpers.appendDoubleVector "distance" (some distance_arg) []
          .null 0 ((StringStream.mk []).put "Error: ")
        = (true, doubles, .vectorData doubles, toIntptr doubles.length,
            (StringStream.mk []).put "Error: ")) ∧
      toSizeT (toIntptr doubles.length) = (sequences.length * sequences.length) % 2 ^ 64 ∧
      (∀ call ∈ trace, call.isReader = true) ∧
      validateAndInvoke helpers algorithm_name algorithm args
          ((StringStream.mk []).put "Error: ") world
        = invoke algorithm_name algorithm args.verbosity sequences (.vectorData doubles)
            ((StringStream.mk []).put "Error: ")
            (obeyThreadCount args.number_of_threads ((StringStream.mk []).put "Error: ")
              world).2.2
            (trace ++ [.obeyThreadCount args.number_of_threads])) := by
  unfold validateAndInvoke
  cases hdist : args.distance_arg with
  | none =>
    left
    refine ⟨"No distances were supplied", [], by decide, by simp, ?_⟩
    simp only [marshal_empty, put_after_start, str_of_two_writes]
  | some distance_arg =>
    have hlabels := isVectorOfStringWith_complaint helpers.appendStrVector
      "sequencenames" args.sequence_arg [] ((StringStream.mk []).put "Error: ")
    rcases hr : isVectorOfStringWith helpers.appendStrVector "sequencenames"
      args.sequence_arg [] ((StringStream.mk []).put "Error: ") with ⟨ok, sequences, written⟩
    rw [hr] at hlabels
    cases ok with
    | false =>
      left
      rcases hlabels with ⟨hok, _⟩ | ⟨_, text, htext, hput⟩
      · exact absurd hok Bool.false_ne_true
      · simp only at hput
        subst hput
        refine ⟨text, [Call.isVectorOfString], htext, isReader_labels, ?_⟩
        simp only [marshal_empty, put_after_start, str_of_two_writes]
    | true =>
      rcases hlabels with ⟨_, hsame⟩ | ⟨hok, _⟩
      · simp only at hsame
        subst hsame
        dsimp only
        by_cases hfew : sequences.length < 3
        · left
          rw [if_pos hfew]
          refine ⟨"sequencenames contains only " ++ toString sequences.length
              ++ " sequences (must have at least 3).", [Call.isVectorOfString],
            length_pos_of_append_right _ " sequences (must have at least 3)." (by decide),
            isReader_labels, ?_⟩
          simp only [marshal_empty, put_after_start, str_of_two_writes]
        · rw [if_neg hfew]
          by_cases hmatrix : isMatrix distance_arg = true
          · rw [if_pos hmatrix]
            rcases isMatrixOfDouble_result "distance" distance_arg .null 0
              ((StringStream.mk []).put "Error: ") with ⟨matrix, _, hread⟩ | ⟨text, htext, hread⟩
            · rw [hread]
              dsimp only
              rcases collectDistancesAndInvoke_cases helpers algorithm_name algorithm args
                sequences distance_arg (.arrayData matrix.data)
                (multiplyDimensions matrix.dimensions 1) ((StringStream.mk []).put "Error: ")
                world [.isVectorOfString, .isMatrixOfDouble]
                with ⟨text, htext, hout⟩ | ⟨doubles, hvec, hsize, hout⟩
              · left
                refine ⟨text, [Call.isVectorOfString, .isMatrixOfDouble] ++ [.isVectorOfDouble],
                  htext, by decide, ?_⟩
                rw [hout]
                simp only [put_after_start, str_of_two_writes]
              · right
                rw [isVectorOfDoubleWith_overwrites] at hvec
                refine ⟨distance_arg, sequences, doubles,
                  [.isVectorOfString, .isMatrixOfDouble, .isVectorOfDouble], rfl, rfl,
                  Nat.le_of_not_lt hfew, fun _ => by rw [hread], hvec, hsize, by decide, ?_⟩
                rw [hout]
                rfl
            · left
              rw [hread]
              refine ⟨text, [Call.isVectorOfString, .isMatrixOfDouble], htext,
                isReader_labels_matrix, ?_⟩
              simp only [marshal_empty, put_after_start, str_of_two_writes]
          · rw [if_neg hmatrix]
            rcases collectDistancesAndInvoke_cases helpers algorithm_name algorithm args
              sequences distance_arg .null 0 ((StringStream.mk []).put "Error: ")
              world [.isVectorOfString]
              with ⟨text, htext, hout⟩ | ⟨doubles, hvec, hsize, hout⟩
            · left
              refine ⟨text, [Call.isVectorOfString] ++ [.isVectorOfDouble], htext,
                by decide, ?_⟩
              rw [hout]
              simp only [put_after_start, str_of_two_writes]
            · right
              refine ⟨distance_arg, sequences, doubles,
                [.isVectorOfString, .isVectorOfDouble], rfl, rfl,
                Nat.le_of_not_lt hfew, fun h => absurd h hmatrix, hvec, hsize, by decide, ?_⟩
              rw [hout]
              rfl
      · exact absurd hok.symm Bool.false_ne_true

/-! ## The invocation branch -/

theorem marshal_trace (tree_string : String) (complaint : StringStream) (world : World)
    (trace : List Call) : (marshal tree_string complaint world trace).trace = trace := by
  unfold marshal
  split <;> rfl

theorem marshal_world (tree_string : String) (complaint : StringStream) (world : World)
    (trace : List Call) : (marshal tree_string complaint world trace).world = world := by
  unfold marshal
  split <;> rfl

theorem marshal_complaint (tree_string : String) (complaint : StringStream) (world : World)
    (trace : List Call) :
    (marshal tree_string complaint world trace).complaint = complaint := by
  unfold marshal
  split <;> rfl

/-- What lines 240-263 do: the calls logged are an optional `beSilent` and the
builder's call; a `false` return gives the failure complaint, a `true` return
gives the builder's text, or an error without a complaint when that text is
empty. -/
theorem invoke_cases (algorithm_name : String) (algorithm : BuilderInterface)
    (verbosity : Int) (sequences : StrVector) (distance_data : DataPtr)
    (complaint : StringStream) (world : World) (trace : List Call) :
    ∃ returned quiet, (quiet = [] ∨ quiet = [Call.beSilent]) ∧
      (invoke algorithm_name algorithm verbosity sequences distance_data complaint world
        trace).trace
        = trace ++ quiet ++ [.constructTreeStringInMemory sequences distance_data returned] ∧
      (returned.1 = false →
        (invoke algorithm_name algorithm verbosity sequences distance_data complaint world
          trace).result
          = .typeError (complaint.put ("Call to constructTreeStringInMemory failed "
              ++ " for algorithm " ++ algorithm_name ++ ".")).str) ∧
      (returned.1 = true → returned.2 = "" →
        (invoke algorithm_name algorithm verbosity sequences distance_data complaint world
          trace).result = .typeError complaint.str) ∧
      (returned.1 = true → returned.2 ≠ "" →
        (invoke algorithm_name algorithm verbosity sequences distance_data complaint world
          trace).result = .unicode returned.2) := by
  refine ⟨algorithm.constructTreeStringInMemory (decide (verbosity = 0) || algorithm.silent)
      (if decide (verbosity = 0) = true then world.beSilent algorithm_name else world).nthreads_var
      sequences distance_data,
    if decide (verbosity = 0) = true then [Call.beSilent] else [], ?_, ?_, ?_, ?_, ?_⟩
  · by_cases hquiet : decide (verbosity = 0) = true
    · right; rw [if_pos hquiet]
    · left; rw [if_neg hquiet]
  · unfold invoke
    simp only [apply_ite Outcome.trace, marshal_trace, ite_self]
    cases decide (verbosity = 0) <;> simp
  · intro hfalse
    unfold invoke
    simp only [hfalse, Bool.not_false, if_true, marshal_empty]
  · intro htrue hempty
    unfold invoke
    simp only [htrue, hempty, Bool.not_true, Bool.false_eq_true, if_false, marshal_empty]
  · intro htrue hfull
    unfold invoke marshal
    simp only [htrue, Bool.not_true, Bool.false_eq_true, if_false, if_neg hfull]

/-! ## The whole call, for any helpers -/

/-- Every call either stops at a check (an error with one complaint after the
prefix, the state untouched, only readers called) or passes all checks and
invokes the builder. -/
theorem constructTreeWith_cases (helpers : Helpers) (world : World) (args : Args) :
    (∃ text trace, 0 < text.length ∧ (∀ call ∈ trace, call.isReader = true) ∧
      constructTreeWith helpers world args
        = ⟨.typeError ("Error: " ++ text), ⟨["Error: ", text]⟩, world, trace⟩) ∨
    (∃ algorithm_name algorithm distance_arg sequences doubles trace,
      args.algorithm_name = some algorithm_name ∧
      world.getTreeBuilderByName algorithm_name = some algorithm ∧
      args.distance_arg = some distance_arg ∧
      isVectorOfStringWith helpers.appendStrVector "sequencenames" args.sequence_arg []
          ((StringStream.mk []).put "Error: ")
        = (true, sequences, (StringStream.mk []).put "Error: ") ∧
      3 ≤ sequences.length ∧
      (isMatrix distance_arg = true →
        (isMatrixOfDouble "distance" distance_arg .null 0
          ((StringStream.mk []).put "Error: ")).1 = true) ∧
      (isVectorOfDoubleWith helpers.appendDoubleVector "distance" (some distance_arg) []
          .null 0 ((StringStream.mk []).put "Error: ")
        = (true, doubles, .vectorData doubles, toIntptr doubles.length,
            (StringStream.mk []).put "Error: ")) ∧
      toSizeT (toIntptr doubles.length) = (sequences.length * sequences.length) % 2 ^ 64 ∧
      (∀ call ∈ trace, call.isReader = true) ∧
      constructTreeWith helpers world args
        = invoke algorithm_name algorithm args.verbosity sequences (.vectorData doubles)
            ((StringStream.mk []).put "Error: ")
            (obeyThreadCount args.number_of_threads ((StringStream.mk []).put "Error: ")
              world).2.2
            (trace ++ [.obeyThreadCount args.number_of_threads])) := by
  unfold constructTreeWith
  cases hname : args.algorithm_name with
  | none =>
    left
    refine ⟨"Algorithm name not specified", [], by decide, by simp, ?_⟩
    simp only [marshal_empty, put_after_start, str_of_two_writes]
  | some algorithm_name =>
    cases hfound : world.getTreeBuilderByName algorithm_name with
    | none =>
      left
      refine ⟨"Algorithm " ++ algorithm_name ++ " not found.", [],
        length_pos_of_append_right _ " not found." (by decide), by simp, ?_⟩
      simp only [hfound, marshal_empty, put_after_start, str_of_two_writes]
    | some algorithm =>
      simp only [hfound]
      rcases validateAndInvoke_cases helpers algorithm_name algorithm args world with
        hstop | ⟨distance_arg, sequences, doubles, trace, h1, h2, h3, h4, h5, h6, h7, h8⟩
      · left
        exact hstop
      · right
        exact ⟨algorithm_name, algorithm, distance_arg, sequences, doubles, trace, rfl, hfound,
          h1, h2, h3, h4, h5, h6, h7, h8⟩

/-- The size check with no wrap-around: when the square of the label count
fits `intptr_t`, passing the check means the counts are equal as integers. -/
theorem entries_eq_square (entries labels : Nat) (hfit : labels * labels < 2 ^ 63)
    (hcheck : toSizeT (toIntptr entries) = (labels * labels) % 2 ^ 64) :
    toIntptr entries = ((labels * labels : Nat) : Int) := by
  unfold toSizeT toIntptr at *
  simp only at hcheck ⊢
  split at hcheck <;> split <;> omega

/-! ## The element count of an array -/

theorem toIntptr_of_lt (n : Nat) (h : n < 2 ^ 63) : toIntptr (n : Int) = (n : Int) := by
  unfold toIntptr
  simp only
  split <;> omega

theorem nonzeroProduct_single (size : Nat) (h : nonzeroProduct [size] < 2 ^ 63) :
    size < 2 ^ 63 := by
  unfold nonzeroProduct at h
  by_cases hzero : size = 0
  · omega
  · have hkeep : (size != 0) = true := by simpa using hzero
    simp only [List.filter, hkeep, List.prod_cons, List.prod_nil, mul_one] at h
    exact h

theorem nonzeroProduct_pair (rows columns : Nat)
    (h : nonzeroProduct [rows, columns] < 2 ^ 63) :
    rows < 2 ^ 63 ∧ rows * columns < 2 ^ 63 := by
  unfold nonzeroProduct at h
  by_cases hrows : rows = 0
  · subst hrows
    simp
  · have hkeep : (rows != 0) = true := by simpa using hrows
    by_cases hcolumns : columns = 0
    · subst hcolumns
      simp only [List.filter, hkeep, bne_self_eq_false, List.prod_cons, List.prod_nil,
        mul_one] at h
      exact ⟨h, by simp⟩
    · have hkeep2 : (columns != 0) = true := by simpa using hcolumns
      simp only [List.filter, hkeep, hkeep2, List.prod_cons, List.prod_nil, mul_one] at h
      refine ⟨?_, h⟩
      have hpos : 0 < columns := Nat.pos_of_ne_zero hcolumns
      exact lt_of_le_of_lt (Nat.le_mul_of_pos_right rows hpos) h

/-- For an array of 1 or 2 dimensions the loop of lines 141-143 never wraps:
the count is the product of the dimension sizes. -/
theorem multiplyDimensions_eq_prod (matrix : PyArrayObject)
    (hnd : matrix.nd = 1 ∨ matrix.nd = 2) :
    multiplyDimensions matrix.dimensions 1 = ((matrix.dimensions.prod : Nat) : Int) := by
  have hfits := matrix.size_fits
  unfold PyArrayObject.nd at hnd
  rcases hdims : matrix.dimensions with _ | ⟨rows, _ | ⟨columns, _ | ⟨extra, rest⟩⟩⟩
  · rw [hdims] at hnd
    simp at hnd
  · rw [hdims] at hfits
    have hsize := nonzeroProduct_single rows hfits
    simp only [multiplyDimensions, List.foldl, one_mul, List.prod_cons, List.prod_nil, mul_one]
    exact toIntptr_of_lt rows hsize
  · rw [hdims] at hfits
    obtain ⟨hrows, hprod⟩ := nonzeroProduct_pair rows columns hfits
    simp only [multiplyDimensions, List.foldl, one_mul, List.prod_cons, List.prod_nil, mul_one]
    rw [toIntptr_of_lt rows hrows]
    have hcast : (rows : Int) * (columns : Int) = ((rows * columns : Nat) : Int) := by
      push_cast
      rfl
    rw [hcast]
    exact toIntptr_of_lt (rows * columns) hprod
  · rw [hdims] at hnd
    simp only [List.length_cons] at hnd
    omega

/-! ## The collectors with the source's helpers -/

theorem toInt32_of_lt (n : Nat) (h : n < 2 ^ 31) : toInt32 (n : Int) = (n : Int) := by
  unfold toInt32
  simp only
  split <;> omega

/-- A non-empty sequence of fewer than `2 ^ 31` elements has a positive count as an `int`. -/
theorem toNat_toInt32_pos (n : Nat) (hpos : 0 < n) (h : n < 2 ^ 31) :
    ∃ remaining, (toInt32 (n : Int)).toNat = remaining + 1 := by
  rw [toInt32_of_lt n h]
  exact ⟨n - 1, by omega⟩

theorem item_message (vector_name : String) :
    vector_name ++ " could not convert item " ++ toString (0 : Nat) ++ " to string."
      = vector_name ++ " could not convert item 0 to string." := by
  rw [String.append_assoc, String.append_assoc]
  rfl

/-- With the source's helper the first visited element ends `isVectorOfString`. -/
theorem isVectorOfStringLoop_first (vector_name : String) (item : PyObject)
    (rest : List PyObject) (remaining : Nat) (sequences : StrVector)
    (complaint : StringStream) :
    isVectorOfStringLoop appendStrVector vector_name (item :: rest) (remaining + 1) 0
        sequences complaint
      = (false, (appendStrVector item sequences).2,
          complaint.put (vector_name ++ " could not convert item 0 to string.")) := by
  unfold isVectorOfStringLoop
  simp only [List.getElem?_cons_zero, appendStrVector_fst, Bool.not_false, if_true,
    item_message]

/-- With the source's helper the first visited element ends `isVectorOfDouble`. -/
theorem isVectorOfDoubleLoop_first (vector_name : String) (item : PyObject)
    (rest : List PyObject) (remaining : Nat) (doubles : DoubleVector)
    (complaint : StringStream) :
    isVectorOfDoubleLoop appendDoubleVector vector_name (item :: rest) (remaining + 1) 0
        doubles complaint
      = (false, (appendDoubleVector item doubles).2,
          complaint.put (vector_name ++ " could not convert item 0 to string.")) := by
  unfold isVectorOfDoubleLoop
  simp only [List.getElem?_cons_zero, appendDoubleVector_fst, Bool.not_false, if_true,
    item_message]

/-- The source's `isVectorOfString` on a sequence whose first element is visited. -/
theorem isVectorOfString_first (vector_name : String) (arg item : PyObject)
    (rest : List PyObject) (remaining : Nat) (sequences : StrVector)
    (complaint : StringStream) (hlist : PySequence_List arg = some (item :: rest))
    (hcount : (toInt32 ((item :: rest).length : Nat)).toNat = remaining + 1) :
    isVectorOfString vector_name (some arg) sequences complaint
      = (false, (appendStrVector item sequences).2,
          complaint.put (vector_name ++ " could not convert item 0 to string.")) := by
  unfold isVectorOfString isVectorOfStringWith
  simp only [hlist]
  rw [hcount]
  exact isVectorOfStringLoop_first vector_name item rest remaining sequences complaint

/-- The source's `isVectorOfString` on a sequence none of whose elements is visited. -/
theorem isVectorOfString_skipped (vector_name : String) (arg : PyObject)
    (seq : List PyObject) (sequences : StrVector) (complaint : StringStream)
    (hlist : PySequence_List arg = some seq)
    (hcount : (toInt32 (seq.length : Nat)).toNat = 0) :
    isVectorOfString vector_name (some arg) sequences complaint
      = (true, sequences, complaint) := by
  unfold isVectorOfString isVectorOfStringWith
  simp only [hlist]
  rw [hcount]
  rfl

/-- The source's `isVectorOfDouble` on a sequence whose first element is visited. -/
theorem isVectorOfDouble_first (vector_name : String) (arg item : PyObject)
    (rest : List PyObject) (remaining : Nat) (doubles : DoubleVector)
    (element_data : DataPtr) (element_count : Int) (complaint : StringStream)
    (hlist : PySequence_List arg = some (item :: rest))
    (hcount : (toInt32 ((item :: rest).length : Nat)).toNat = remaining + 1) :
    isVectorOfDouble vector_name (some arg) doubles element_data element_count complaint
      = (false, (appendDoubleVector item doubles).2, .null, 0,
          complaint.put (vector_name ++ " could not convert item 0 to string.")) := by
  unfold isVectorOfDouble isVectorOfDoubleWith
  simp only [hlist]
  rw [hcount, isVectorOfDoubleLoop_first]

/-- The source's `isVectorOfDouble` on a sequence none of whose elements is visited. -/
theorem isVectorOfDouble_skipped (vector_name : String) (arg : PyObject)
    (seq : List PyObject) (doubles : DoubleVector) (element_data : DataPtr)
    (element_count : Int) (complaint : StringStream)
    (hlist : PySequence_List arg = some seq)
    (hcount : (toInt32 (seq.length : Nat)).toNat = 0) :
    isVectorOfDouble vector_name (some arg) doubles element_data element_count complaint
      = (true, doubles, .vectorData doubles, toIntptr doubles.length, complaint) := by
  unfold isVectorOfDouble isVectorOfDoubleWith
  simp only [hlist]
  rw [hcount]
  rfl

/-! ## The call up to the labels -/

/-- A call whose label collection fails ends with the collector's complaint. -/
theorem constructTreeWith_labels_failed (helpers : Helpers) (world : World) (args : Args)
    (algorithm_name : String) (algorithm : BuilderInterface) (distance_arg : PyObject)
    (sequences : StrVector) (written : StringStream)
    (hname : args.algorithm_name = some algorithm_name)
    (hfound : world.getTreeBuilderByName algorithm_name = some algorithm)
    (hdist : args.distance_arg = some distance_arg)
    (hlabels : isVectorOfStringWith helpers.appendStrVector "sequencenames" args.sequence_arg
      [] ((StringStream.mk []).put "Error: ") = (false, sequences, written)) :
    constructTreeWith helpers world args
      = ⟨.typeError written.str, written, world, [.isVectorOfString]⟩ := by
  unfold constructTreeWith validateAndInvoke
  simp only [hname, hfound, hdist, hlabels, marshal_empty]

/-- A call whose label collection yields fewer than 3 labels ends with the count message. -/
theorem constructTreeWith_few_labels (helpers : Helpers) (world : World) (args : Args)
    (algorithm_name : String) (algorithm : BuilderInterface) (distance_arg : PyObject)
    (sequences : StrVector)
    (hname : args.algorithm_name = some algorithm_name)
    (hfound : world.getTreeBuilderByName algorithm_name = some algorithm)
    (hdist : args.distance_arg = some distance_arg)
    (hlabels : isVectorOfStringWith helpers.appendStrVector "sequencenames" args.sequence_arg
      [] ((StringStream.mk []).put "Error: ")
      = (true, sequences, (StringStream.mk []).put "Error: "))
    (hfew : sequences.length < 3) :
    constructTreeWith helpers world args
      = ⟨.typeError ("Error: sequencenames contains only " ++ toString sequences.length
            ++ " sequences (must have at least 3)."),
          ⟨["Error: ", "sequencenames contains only " ++ toString sequences.length
            ++ " sequences (must have at least 3)."]⟩,
          world, [.isVectorOfString]⟩ := by
  unfold constructTreeWith validateAndInvoke
  simp only [hname, hfound, hdist, hlabels, if_pos hfew, marshal_empty, put_after_start,
    str_of_two_writes, ← String.append_assoc]
  rfl

/-! ## What the helpers append -/

theorem appendDoubleVector_snd (append_me : PyObject) (to_me : DoubleVector) :
    (appendDoubleVector append_me to_me).2
      = match PyFloat_AsDouble append_me with
        | some float_val => to_me ++ [float_val]
        | none => to_me := by
  unfold appendDoubleVector
  cases PyFloat_AsDouble append_me <;> rfl

theorem obeyThreadCount_zero (complaint : StringStream) (world : World) :
    obeyThreadCount 0 complaint world = (true, complaint, world) := by
  unfold obeyThreadCount
  by_cases hopenmp : world.openmp = true
  · simp only [hopenmp, if_true, lt_irrefl, if_false]
  · simp only [hopenmp, if_false]
    rfl

/-- The value returned by the invocation branch, in terms of what the builder returns. -/
theorem invoke_result (algorithm_name : String) (algorithm : BuilderInterface)
    (verbosity : Int) (sequences : StrVector) (distance_data : DataPtr)
    (complaint : StringStream) (world : World) (trace : List Call) :
    (invoke algorithm_name algorithm verbosity sequences distance_data complaint world
      trace).result
      = if (algorithm.constructTreeStringInMemory (decide (verbosity = 0) || algorithm.silent)
            world.nthreads_var sequences distance_data).1 = false then
          .typeError (complaint.put ("Call to constructTreeStringInMemory failed "
            ++ " for algorithm " ++ algorithm_name ++ ".")).str
        else if (algorithm.constructTreeStringInMemory
            (decide (verbosity = 0) || algorithm.silent)
            world.nthreads_var sequences distance_data).2 = "" then
          .typeError complaint.str
        else
          .unicode (algorithm.constructTreeStringInMemory
            (decide (verbosity = 0) || algorithm.silent)
            world.nthreads_var sequences distance_data).2 := by
  have hthreads : (if decide (verbosity = 0) = true then world.beSilent algorithm_name
      else world).nthreads_var = world.nthreads_var := by
    split <;> rfl
  unfold invoke
  simp only [hthreads]
  cases hok : (algorithm.constructTreeStringInMemory (decide (verbosity = 0) || algorithm.silent)
      world.nthreads_var sequences distance_data).1 with
  | false =>
    simp only [Bool.not_false, if_true, marshal_empty]
  | true =>
    simp only [Bool.not_true, Bool.false_eq_true, if_false]
    unfold marshal
    split <;> rfl

/-- The state left by the invocation branch. -/
theorem invoke_world (algorithm_name : String) (algorithm : BuilderInterface)
    (verbosity : Int) (sequences : StrVector) (distance_data : DataPtr)
    (complaint : StringStream) (world : World) (trace : List Call) :
    (invoke algorithm_name algorithm verbosity sequences distance_data complaint world
      trace).world
      = if decide (verbosity = 0) = true then world.beSilent algorithm_name else world := by
  unfold invoke
  simp only [apply_ite Outcome.world, marshal_world, ite_self]

/-- When all checks pass, the call is the invocation branch. -/
theorem constructTreeWith_of_checks (helpers : Helpers) (world : World) (args : Args)
    (algorithm_name : String) (algorithm : BuilderInterface) (distance_arg : PyObject)
    (sequences : StrVector) (doubles : DoubleVector)
    (hname : args.algorithm_name = some algorithm_name)
    (hfound : world.getTreeBuilderByName algorithm_name = some algorithm)
    (hdist : args.distance_arg = some distance_arg)
    (hlabels : isVectorOfStringWith helpers.appendStrVector "sequencenames" args.sequence_arg
      [] ((StringStream.mk []).put "Error: ")
      = (true, sequences, (StringStream.mk []).put "Error: "))
    (hcount : 3 ≤ sequences.length)
    (hmatrix : isMatrix distance_arg = true →
      (isMatrixOfDouble "distance" distance_arg .null 0
        ((StringStream.mk []).put "Error: ")).1 = true)
    (hvector : isVectorOfDoubleWith helpers.appendDoubleVector "distance" (some distance_arg)
      [] .null 0 ((StringStream.mk []).put "Error: ")
      = (true, doubles, .vectorData doubles, toIntptr doubles.length,
          (StringStream.mk []).put "Error: "))
    (hsize : toSizeT (toIntptr doubles.length)
      = (sequences.length * sequences.length) % 2 ^ 64) :
    constructTreeWith helpers world args
      = invoke algorithm_name algorithm args.verbosity sequences (.vectorData doubles)
          ((StringStream.mk []).put "Error: ")
          (obeyThreadCount args.number_of_threads ((StringStream.mk []).put "Error: ")
            world).2.2
          ((if isMatrix distance_arg = true
              then [Call.isVectorOfString, Call.isMatrixOfDouble]
              else [Call.isVectorOfString])
            ++ [Call.isVectorOfDouble, Call.obeyThreadCount args.number_of_threads]) := by
  have htail : ∀ (distance_data : DataPtr) (distance_entries : Int) (trace : List Call),
      collectDistancesAndInvoke helpers algorithm_name algorithm args sequences distance_arg
          distance_data distance_entries ((StringStream.mk []).put "Error: ") world trace
        = invoke algorithm_name algorithm args.verbosity sequences (.vectorData doubles)
            ((StringStream.mk []).put "Error: ")
            (obeyThreadCount args.number_of_threads ((StringStream.mk []).put "Error: ")
              world).2.2
            (trace ++ [Call.isVectorOfDouble,
              Call.obeyThreadCount args.number_of_threads]) := by
    intro distance_data distance_entries trace
    unfold collectDistancesAndInvoke
    rw [isVectorOfDoubleWith_overwrites, hvector]
    simp only [ne_eq, hsize, not_true_eq_false, if_false]
    rw [obeyThreadCount_result]
  unfold constructTreeWith validateAndInvoke
  simp only [hname, hfound, hdist, hlabels, if_neg (Nat.not_lt.mpr hcount)]
  by_cases hismatrix : isMatrix distance_arg = true
  · rw [if_pos hismatrix, if_pos hismatrix]
    rcases isMatrixOfDouble_result "distance" distance_arg .null 0
      ((StringStream.mk []).put "Error: ") with ⟨matrix, _, hread⟩ | ⟨text, _, hread⟩
    · rw [hread]
      exact htail _ _ _
    · have hok := hmatrix hismatrix
      rw [hread] at hok
      exact absurd hok (by simp)
  · rw [if_neg hismatrix, if_neg hismatrix]
    exact htail _ _ _

/-! ## The registry after `beSilent` -/

theorem beSilent_lookup (world : World) (algorithm_name : String)
    (algorithm : BuilderInterface)
    (hfound : world.getTreeBuilderByName algorithm_name = some algorithm) :
    (world.beSilent algorithm_name).getTreeBuilderByName algorithm_name
      = some { algorithm with silent := true } := by
  unfold World.getTreeBuilderByName at hfound ⊢
  unfold World.beSilent
  simp only [if_true, hfound, Option.map_some']

/-- The call `beSilent` changes no builder's `constructTreeStringInMemory`. -/
theorem beSilent_keeps_builders (world : World) (algorithm_name key : String) :
    ((world.beSilent algorithm_name).getTreeBuilderByName key).map
        (fun builder => builder.constructTreeStringInMemory)
      = (world.getTreeBuilderByName key).map
        (fun builder => builder.constructTreeStringInMemory) := by
  unfold World.getTreeBuilderByName World.beSilent
  by_cases hkey : key = algorithm_name
  · simp only [hkey, if_true]
    cases world.factory algorithm_name <;> rfl
  · simp only [hkey, if_false]

/-! ## What the builder is given -/

/-- Whatever the helpers do, the distance pointer given to the builder is always
`data()` of the local vector filled by `isVectorOfDouble`, never the storage of
an array. -/
theorem builder_receives_vector (helpers : Helpers) (world : World) (args : Args)
    (sequences : StrVector) (distance_data : DataPtr) (returned : Bool × String)
    (hcalled : Call.constructTreeStringInMemory sequences distance_data returned
      ∈ (constructTreeWith helpers world args).trace) :
    ∃ doubles, distance_data = .vectorData doubles ∧
      ∃ distance_arg, args.distance_arg = some distance_arg ∧
        isVectorOfDoubleWith helpers.appendDoubleVector "distance" (some distance_arg) []
            .null 0 ((StringStream.mk []).put "Error: ")
          = (true, doubles, .vectorData doubles, toIntptr doubles.length,
              (StringStream.mk []).put "Error: ") := by
  rcases constructTreeWith_cases helpers world args with
    ⟨text, trace, _, hreaders, hout⟩ |
    ⟨algorithm_name, algorithm, distance_arg, labels, doubles, trace,
      _, _, hdist, _, _, _, hvector, _, hreaders, hout⟩
  · rw [hout] at hcalled
    exact absurd (hreaders _ hcalled) (by simp [Call.isReader])
  · obtain ⟨result, quiet, hquiet, htrace, _, _, _⟩ :=
      invoke_cases algorithm_name algorithm args.verbosity labels (.vectorData doubles)
        ((StringStream.mk []).put "Error: ")
        (obeyThreadCount args.number_of_threads ((StringStream.mk []).put "Error: ") world).2.2
        (trace ++ [.obeyThreadCount args.number_of_threads])
    rw [hout, htrace] at hcalled
    simp only [List.mem_append, List.mem_singleton] at hcalled
    rcases hcalled with ((hcalled | hcalled) | hcalled) | hcalled
    · exact absurd (hreaders _ hcalled) (by simp [Call.isReader])
    · exact absurd hcalled (by simp)
    · rcases hquiet with hq | hq <;> rw [hq] at hcalled <;> simp at hcalled
    · simp only [Call.constructTreeStringInMemory.injEq] at hcalled
      exact ⟨doubles, hcalled.2.1, distance_arg, hdist, hvector⟩

/-! ## The argument parse -/

/-- With the format and the pointers of lines 184-188 the conversion fails for
every list of arguments, whatever the type test of `O!` answers: the first `O!`
takes the address of `sequence_arg` for its type object and stores through the
address of `distance_arg`, the second takes the address of `number_of_threads`
for its type object and has the address of the `int` `precision` to store an
object through, and no pointer is left for the three units `i`. -/
theorem convertArguments_fails (typeCheck : PyObject → LocalAddress → Bool)
    (arguments : List PyArgument) (locals : Args) :
    convertArguments typeCheck formatUnits passedPointers arguments locals = none := by
  unfold formatUnits passedPointers
  cases arguments with
  | nil => rfl
  | cons first rest =>
    unfold convertArguments
    cases first.asCString with
    | none => rfl
    | some value =>
      simp only [store]
      cases rest with
      | nil => rfl
      | cons second others =>
        unfold convertArguments
        cases typeCheck second.object .sequence_arg with
        | false => rfl
        | true =>
          simp only [store, if_true]
          cases others with
          | nil => rfl
          | cons third last =>
            unfold convertArguments
            cases typeCheck third.object .number_of_threads with
            | false => rfl
            | true => rfl

/-- The parse of lines 184-188 fails on every call. -/
theorem PyArg_ParseTupleAndKeywords_fails (call : PyCall) :
    PyArg_ParseTupleAndKeywords call = none := by
  unfold PyArg_ParseTupleAndKeywords
  split
  · exact convertArguments_fails PyObject_TypeCheck call initialLocals
  · rfl

/-- Every call returns from line 190. -/
theorem constructTree_returns_from_parse (world : World) (call : PyCall) :
    pydecenttree_constructTree world call = .parseFailed := by
  unfold pydecenttree_constructTree
  rw [PyArg_ParseTupleAndKeywords_fails]

/-! ## Lines 192-263 on given locals -/

/-- When the registry does not know the algorithm name, then whatever the other
locals are, lines 192-263 raise exactly `Error: Algorithm <name> not found.`,
no reader and no builder method is called, and the state (registry included)
is left as it was. -/
theorem unknown_algorithm_is_named (world : World) (args : Args) (algorithm_name : String)
    (hname : args.algorithm_name = some algorithm_name)
    (hunknown : world.getTreeBuilderByName algorithm_name = none) :
    (constructTreeBody world args).result
      = .typeError ("Error: Algorithm " ++ algorithm_name ++ " not found.") ∧
    (constructTreeBody world args).complaint.writes
      = ["Error: ", "Algorithm " ++ algorithm_name ++ " not found."] ∧
    (constructTreeBody world args).trace = [] ∧
    (constructTreeBody world args).world = world ∧
    (constructTreeBody world args).world.factory = world.factory := by
  have hout : constructTreeBody world args
      = ⟨.typeError ("Error: " ++ ("Algorithm " ++ algorithm_name ++ " not found.")),
          ⟨["Error: ", "Algorithm " ++ algorithm_name ++ " not found."]⟩, world, []⟩ := by
    unfold constructTreeBody constructTreeWith
    simp only [hname, hunknown, marshal_empty, put_after_start, str_of_two_writes]
  rw [hout]
  refine ⟨?_, rfl, rfl, rfl, rfl⟩
  simp only [← String.append_assoc]
  rfl

/-- Whatever the two element helpers do, the checks of lines 192-263 run in the
order name present, name resolved, distances present, labels, distances, and
the first failing one decides the error: (1) an absent name gives exactly
`Error: Algorithm name not specified`; (2) an unknown name gives the not-found
message; (3) a resolved name with no distance argument gives exactly
`Error: No distances were supplied`, whatever the sequences argument is;
(4) with distances present, a failure of `isVectorOfString` gives the complaint
it wrote, and fewer than 3 labels give the count message, whatever the
distance argument is, and no distance reader is called; (5) a distance reader
is called only after checks 1 to 4 passed.  The source's body is the instance
`helpers = sourceHelpers`. -/
theorem first_failing_check_decides (helpers : Helpers) (world : World) (args : Args) :
    (args.algorithm_name = none →
      (constructTreeWith helpers world args).result
        = .typeError "Error: Algorithm name not specified" ∧
      (constructTreeWith helpers world args).trace = []) ∧
    (∀ algorithm_name, args.algorithm_name = some algorithm_name →
      world.getTreeBuilderByName algorithm_name = none →
      (constructTreeWith helpers world args).result
        = .typeError ("Error: Algorithm " ++ algorithm_name ++ " not found.") ∧
      (constructTreeWith helpers world args).trace = []) ∧
    (∀ algorithm_name algorithm, args.algorithm_name = some algorithm_name →
      world.getTreeBuilderByName algorithm_name = some algorithm →
      args.distance_arg = none →
      (constructTreeWith helpers world args).result
        = .typeError "Error: No distances were supplied" ∧
      (constructTreeWith helpers world args).trace = []) ∧
    (∀ algorithm_name algorithm distance_arg, args.algorithm_name = some algorithm_name →
      world.getTreeBuilderByName algorithm_name = some algorithm →
      args.distance_arg = some distance_arg →
      ((isVectorOfStringWith helpers.appendStrVector "sequencenames" args.sequence_arg []
          ((StringStream.mk []).put "Error: ")).1 = false →
        (constructTreeWith helpers world args).result
          = .typeError (isVectorOfStringWith helpers.appendStrVector "sequencenames"
              args.sequence_arg [] ((StringStream.mk []).put "Error: ")).2.2.str ∧
        (constructTreeWith helpers world args).trace = [.isVectorOfString]) ∧
      ((isVectorOfStringWith helpers.appendStrVector "sequencenames" args.sequence_arg []
          ((StringStream.mk []).put "Error: ")).1 = true →
        (isVectorOfStringWith helpers.appendStrVector "sequencenames" args.sequence_arg []
          ((StringStream.mk []).put "Error: ")).2.1.length < 3 →
        (constructTreeWith helpers world args).result
          = .typeError ("Error: sequencenames contains only "
              ++ toString (isVectorOfStringWith helpers.appendStrVector "sequencenames"
                  args.sequence_arg [] ((StringStream.mk []).put "Error: ")).2.1.length
              ++ " sequences (must have at least 3).") ∧
        (constructTreeWith helpers world args).trace = [.isVectorOfString])) ∧
    ((Call.isMatrixOfDouble ∈ (constructTreeWith helpers world args).trace ∨
        Call.isVectorOfDouble ∈ (constructTreeWith helpers world args).trace) →
      ∃ algorithm_name algorithm distance_arg,
        args.algorithm_name = some algorithm_name ∧
        world.getTreeBuilderByName algorithm_name = some algorithm ∧
        args.distance_arg = some distance_arg ∧
        (isVectorOfStringWith helpers.appendStrVector "sequencenames" args.sequence_arg []
          ((StringStream.mk []).put "Error: ")).1 = true ∧
        3 ≤ (isVectorOfStringWith helpers.appendStrVector "sequencenames" args.sequence_arg []
          ((StringStream.mk []).put "Error: ")).2.1.length) := by
  have hlabels := isVectorOfStringWith_complaint helpers.appendStrVector
    "sequencenames" args.sequence_arg [] ((StringStream.mk []).put "Error: ")
  refine ⟨?_, ?_, ?_, ?_, ?_⟩
  · intro hname
    have hout : constructTreeWith helpers world args
        = ⟨.typeError ("Error: " ++ "Algorithm name not specified"),
            ⟨["Error: ", "Algorithm name not specified"]⟩, world, []⟩ := by
      unfold constructTreeWith
      simp only [hname, marshal_empty, put_after_start, str_of_two_writes]
    rw [hout]
    exact ⟨rfl, rfl⟩
  · intro algorithm_name hname hunknown
    have hout : constructTreeWith helpers world args
        = ⟨.typeError ("Error: " ++ ("Algorithm " ++ algorithm_name ++ " not found.")),
            ⟨["Error: ", "Algorithm " ++ algorithm_name ++ " not found."]⟩, world, []⟩ := by
      unfold constructTreeWith
      simp only [hname, hunknown, marshal_empty, put_after_start, str_of_two_writes]
    rw [hout]
    refine ⟨?_, rfl⟩
    simp only [← String.append_assoc]
    rfl
  · intro algorithm_name algorithm hname hfound hdist
    have hout : constructTreeWith helpers world args
        = ⟨.typeError ("Error: " ++ "No distances were supplied"),
            ⟨["Error: ", "No distances were supplied"]⟩, world, []⟩ := by
      unfold constructTreeWith validateAndInvoke
      simp only [hname, hfound, hdist, marshal_empty, put_after_start, str_of_two_writes]
    rw [hout]
    exact ⟨rfl, rfl⟩
  · intro algorithm_name algorithm distance_arg hname hfound hdist
    rcases hr : isVectorOfStringWith helpers.appendStrVector "sequencenames"
      args.sequence_arg [] ((StringStream.mk []).put "Error: ") with ⟨ok, sequences, written⟩
    rw [hr] at hlabels
    constructor
    · intro hfalse
      simp only at hfalse
      subst hfalse
      have hout : constructTreeWith helpers world args
          = ⟨.typeError written.str, written, world, [.isVectorOfString]⟩ := by
        unfold constructTreeWith validateAndInvoke
        simp only [hname, hfound, hdist, hr, marshal_empty]
      rw [hout]
      exact ⟨rfl, rfl⟩
    · intro htrue hfew
      simp only at htrue hfew
      subst htrue
      rcases hlabels with ⟨_, hsame⟩ | ⟨hok, _⟩
      · simp only at hsame
        subst hsame
        have hout : constructTreeWith helpers world args
            = ⟨.typeError ("Error: " ++ ("sequencenames contains only "
                  ++ toString sequences.length ++ " sequences (must have at least 3).")),
                ⟨["Error: ", "sequencenames contains only "
                  ++ toString sequences.length ++ " sequences (must have at least 3)."]⟩,
                world, [.isVectorOfString]⟩ := by
          unfold constructTreeWith validateAndInvoke
          simp only [hname, hfound, hdist, hr, if_pos hfew, marshal_empty, put_after_start,
            str_of_two_writes]
        rw [hout]
        refine ⟨?_, rfl⟩
        simp only [← String.append_assoc]
        rfl
      · exact absurd hok.symm Bool.false_ne_true
  · intro hreader
    unfold constructTreeWith at hreader
    cases hname : args.algorithm_name with
    | none =>
      simp only [hname, marshal_trace] at hreader
      simp at hreader
    | some algorithm_name =>
      cases hfound : world.getTreeBuilderByName algorithm_name with
      | none =>
        simp only [hname, hfound, marshal_trace] at hreader
        simp at hreader
      | some algorithm =>
        simp only [hname, hfound] at hreader
        unfold validateAndInvoke at hreader
        cases hdist : args.distance_arg with
        | none =>
          simp only [hdist, marshal_trace] at hreader
          simp at hreader
        | some distance_arg =>
          simp only [hdist] at hreader
          rcases hr : isVectorOfStringWith helpers.appendStrVector "sequencenames"
            args.sequence_arg [] ((StringStream.mk []).put "Error: ")
            with ⟨ok, sequences, written⟩
          rw [hr] at hreader
          cases ok with
          | false =>
            simp only [marshal_trace] at hreader
            simp at hreader
          | true =>
            by_cases hfew : sequences.length < 3
            · simp only [if_pos hfew, marshal_trace] at hreader
              simp at hreader
            · exact ⟨algorithm_name, algorithm, distance_arg, rfl, hfound, rfl, rfl,
                Nat.le_of_not_lt hfew⟩

/-- With the source's helpers, every error raised by lines 192-263 has the
message `Error: ` followed by one non-empty fragment, and the diagnostic stream
then holds exactly two writes, the start and that fragment: the branch that
calls the builder is not reached. -/
theorem error_carries_one_complaint (world : World) (args : Args) (message : String)
    (herror : (constructTreeBody world args).result = .typeError message) :
    ∃ fragment, fragment ≠ "" ∧
      (constructTreeBody world args).complaint.writes = ["Error: ", fragment] ∧
      message = "Error: " ++ fragment := by
  obtain ⟨text, trace, htext, _, hout⟩ := constructTree_source world args
  rw [hout] at herror ⊢
  refine ⟨text, ne_empty_of_length_pos text htext, rfl, ?_⟩
  simp only [PyResult.typeError.injEq] at herror
  exact herror.symm

/-- For every integer `n`, `obeyThreadCount(n)` returns true and leaves the
diagnostic stream and the registry unchanged.  In a build with `_OPENMP`, with
`max` the value that `omp_get_max_threads()` returns before the call, the thread
setting after the call is `n` if `0 < n ≤ max` and is unchanged if `n ≤ 0` or
`n > max`; in a build without `_OPENMP` the function changes nothing. -/
theorem obeyThreadCount_sets_within_maximum (number_of_threads : Int)
    (complaint : StringStream) (world : World) :
    (obeyThreadCount number_of_threads complaint world).1 = true ∧
    (obeyThreadCount number_of_threads complaint world).2.1 = complaint ∧
    (obeyThreadCount number_of_threads complaint world).2.2.factory = world.factory ∧
    (obeyThreadCount number_of_threads complaint world).2.2.openmp = world.openmp ∧
    (world.openmp = true →
      (0 < number_of_threads → number_of_threads ≤ omp_get_max_threads world →
        (obeyThreadCount number_of_threads complaint world).2.2.nthreads_var
          = number_of_threads) ∧
      (number_of_threads ≤ 0 ∨ omp_get_max_threads world < number_of_threads →
        (obeyThreadCount number_of_threads complaint world).2.2 = world)) ∧
    (world.openmp = false →
      (obeyThreadCount number_of_threads complaint world).2.2 = world) := by
  by_cases hopenmp : world.openmp = true
  · by_cases hpos : 0 < number_of_threads
    · by_cases hmax : omp_get_max_threads world < number_of_threads
      · have hout : obeyThreadCount number_of_threads complaint world
            = (true, complaint, world) := by
          unfold obeyThreadCount
          simp only [hopenmp, hpos, hmax, if_true]
        rw [hout]
        refine ⟨rfl, rfl, rfl, rfl, fun _ => ⟨fun _ hle => ?_, fun _ => rfl⟩, fun _ => rfl⟩
        omega
      · have hout : obeyThreadCount number_of_threads complaint world
            = (true, complaint, omp_set_num_threads number_of_threads world) := by
          unfold obeyThreadCount
          simp only [hopenmp, hpos, hmax, if_true, if_false]
        rw [hout]
        refine ⟨rfl, rfl, rfl, rfl, fun _ => ⟨fun _ _ => rfl, fun h => ?_⟩, fun h => ?_⟩
        · rcases h with h | h
          · omega
          · exact absurd h hmax
        · rw [hopenmp] at h
          exact absurd h (by decide)
    · have hout : obeyThreadCount number_of_threads complaint world
          = (true, complaint, world) := by
        unfold obeyThreadCount
        simp only [hopenmp, hpos, if_true, if_false]
      rw [hout]
      exact ⟨rfl, rfl, rfl, rfl, fun _ => ⟨fun h _ => absurd h hpos, fun _ => rfl⟩,
        fun _ => rfl⟩
  · have hout : obeyThreadCount number_of_threads complaint world
        = (true, complaint, world) := by
      unfold obeyThreadCount
      simp only [hopenmp, if_false]
      rfl
    rw [hout]
    exact ⟨rfl, rfl, rfl, rfl, fun h => absurd h hopenmp, fun _ => rfl⟩

/-- Two sequential runs of lines 192-263 on the same locals.  With the source's
helpers the first run leaves the whole state untouched, for every input, and
the second gives the same result.  Whatever the two element helpers do, with
`number_of_threads = 0` the second run returns what the first returned (builders
being functions of their inputs), the thread setting is unchanged, and the
registry knows the same names with the same `constructTreeStringInMemory`; what
the first run may have changed is the silent flag of the invoked builder. -/
theorem sequential_calls_agree (helpers : Helpers) (world : World) (args : Args)
    (hthreads : args.number_of_threads = 0) :
    (constructTreeBody world args).world = world ∧
    (constructTreeBody (constructTreeBody world args).world args).result
      = (constructTreeBody world args).result ∧
    (constructTreeWith helpers (constructTreeWith helpers world args).world args).result
      = (constructTreeWith helpers world args).result ∧
    (constructTreeWith helpers world args).world.nthreads_var = world.nthreads_var ∧
    (constructTreeWith helpers world args).world.openmp = world.openmp ∧
    (∀ key,
      ((constructTreeWith helpers world args).world.getTreeBuilderByName key).map
          (fun builder => builder.constructTreeStringInMemory)
        = (world.getTreeBuilderByName key).map
          (fun builder => builder.constructTreeStringInMemory)) := by
  have hreal : (constructTreeBody world args).world = world := by
    obtain ⟨text, trace, _, _, hout⟩ := constructTree_source world args
    rw [hout]
  refine ⟨hreal, by rw [hreal], ?_⟩
  rcases constructTreeWith_cases helpers world args with
    ⟨text, trace, _, _, hout⟩ |
    ⟨algorithm_name, algorithm, distance_arg, sequences, doubles, trace,
      hname, hfound, hdist, hlabels, hcount, hmatrix, hvector, hsize, _, _⟩
  · have hworld : (constructTreeWith helpers world args).world = world := by
      rw [hout]
    rw [hworld]
    exact ⟨rfl, rfl, rfl, fun _ => rfl⟩
  · have hfirst := constructTreeWith_of_checks helpers world args algorithm_name algorithm
      distance_arg sequences doubles hname hfound hdist hlabels hcount hmatrix hvector hsize
    rw [hthreads, obeyThreadCount_zero] at hfirst
    have hworld : (constructTreeWith helpers world args).world
        = if decide (args.verbosity = 0) = true then world.beSilent algorithm_name
          else world := by
      rw [hfirst, invoke_world]
    by_cases hquiet : decide (args.verbosity = 0) = true
    · rw [if_pos hquiet] at hworld
      have hsecond := constructTreeWith_of_checks helpers (world.beSilent algorithm_name) args
        algorithm_name { algorithm with silent := true } distance_arg sequences doubles hname
        (beSilent_lookup world algorithm_name algorithm hfound) hdist hlabels hcount hmatrix
        hvector hsize
      rw [hthreads, obeyThreadCount_zero] at hsecond
      rw [hworld]
      refine ⟨?_, rfl, rfl, fun key => beSilent_keeps_builders world algorithm_name key⟩
      rw [hsecond, hfirst, invoke_result, invoke_result]
      simp only [hquiet, Bool.true_or]
      rfl
    · rw [if_neg hquiet] at hworld
      rw [hworld]
      exact ⟨rfl, rfl, rfl, fun _ => rfl⟩

/-! ## The message of an error -/

/-- The diagnostic stream at the end of the invocation branch: a `false` return
adds the failure complaint, a `true` return with an empty text adds nothing. -/
theorem invoke_error_cases (algorithm_name : String) (algorithm : BuilderInterface)
    (verbosity : Int) (sequences : StrVector) (distance_data : DataPtr)
    (complaint : StringStream) (world : World) (trace : List Call) :
    ∃ returned quiet, (quiet = [] ∨ quiet = [Call.beSilent]) ∧
      (invoke algorithm_name algorithm verbosity sequences distance_data complaint world
        trace).trace
        = trace ++ quiet ++ [.constructTreeStringInMemory sequences distance_data returned] ∧
      (returned.1 = false →
        (invoke algorithm_name algorithm verbosity sequences distance_data complaint world
          trace).result
          = .typeError (complaint.put ("Call to constructTreeStringInMemory failed "
              ++ " for algorithm " ++ algorithm_name ++ ".")).str ∧
        (invoke algorithm_name algorithm verbosity sequences distance_data complaint world
          trace).complaint
          = complaint.put ("Call to constructTreeStringInMemory failed "
              ++ " for algorithm " ++ algorithm_name ++ ".")) ∧
      (returned.1 = true → returned.2 = "" →
        (invoke algorithm_name algorithm verbosity sequences distance_data complaint world
          trace).result = .typeError complaint.str ∧
        (invoke algorithm_name algorithm verbosity sequences distance_data complaint world
          trace).complaint = complaint) ∧
      (returned.1 = true → returned.2 ≠ "" →
        (invoke algorithm_name algorithm verbosity sequences distance_data complaint world
          trace).result = .unicode returned.2) := by
  refine ⟨algorithm.constructTreeStringInMemory (decide (verbosity = 0) || algorithm.silent)
      (if decide (verbosity = 0) = true then world.beSilent algorithm_name else world).nthreads_var
      sequences distance_data,
    if decide (verbosity = 0) = true then [Call.beSilent] else [], ?_, ?_, ?_, ?_, ?_⟩
  · by_cases hquiet : decide (verbosity = 0) = true
    · right; rw [if_pos hquiet]
    · left; rw [if_neg hquiet]
  · unfold invoke
    simp only [apply_ite Outcome.trace, marshal_trace, ite_self]
    cases decide (verbosity = 0) <;> simp
  · intro hfalse
    unfold invoke
    simp only [hfalse, Bool.not_false, if_true, marshal_empty, and_self]
  · intro htrue hempty
    unfold invoke
    simp only [htrue, hempty, Bool.not_true, Bool.false_eq_true, if_false, marshal_empty,
      and_self]
  · intro htrue hfull
    unfold invoke marshal
    simp only [htrue, Bool.not_true, Bool.false_eq_true, if_false, if_neg hfull]

/-- Whatever the two element helpers do, an error raised by lines 192-263 has
one of two shapes: the message is `Error: ` followed by the one non-empty
complaint written, or it is the bare `Error: ` with no complaint written, and
then the builder was called, returned `true` and left the tree text empty. -/
theorem error_message_shape (helpers : Helpers) (world : World) (args : Args)
    (message : String)
    (herror : (constructTreeWith helpers world args).result = .typeError message) :
    (∃ fragment, fragment ≠ "" ∧
      (constructTreeWith helpers world args).complaint.writes = ["Error: ", fragment] ∧
      message = "Error: " ++ fragment) ∨
    ((constructTreeWith helpers world args).complaint.writes = ["Error: "] ∧
      message = "Error: " ∧
      ∃ sequences distance_data,
        Call.constructTreeStringInMemory sequences distance_data (true, "")
          ∈ (constructTreeWith helpers world args).trace) := by
  rcases constructTreeWith_cases helpers world args with
    ⟨text, trace, htext, _, hout⟩ |
    ⟨algorithm_name, algorithm, distance_arg, sequences, doubles, trace,
      _, _, _, _, _, _, _, _, _, hout⟩
  · left
    rw [hout] at herror ⊢
    simp only [PyResult.typeError.injEq] at herror
    exact ⟨text, ne_empty_of_length_pos text htext, rfl, herror.symm⟩
  · obtain ⟨returned, quiet, _, htrace, hfalse, hempty, hfull⟩ :=
      invoke_error_cases algorithm_name algorithm args.verbosity sequences
        (.vectorData doubles) ((StringStream.mk []).put "Error: ")
        (obeyThreadCount args.number_of_threads ((StringStream.mk []).put "Error: ") world).2.2
        (trace ++ [.obeyThreadCount args.number_of_threads])
    rw [hout] at herror ⊢
    cases hok : returned.1 with
    | false =>
      left
      obtain ⟨hresult, hstream⟩ := hfalse hok
      rw [hresult] at herror
      rw [hstream]
      simp only [PyResult.typeError.injEq] at herror
      refine ⟨"Call to constructTreeStringInMemory failed " ++ " for algorithm "
        ++ algorithm_name ++ ".", ?_, rfl, ?_⟩
      · exact ne_empty_of_length_pos _ (length_pos_of_append_right _ "." (by decide))
      · rw [← herror, put_after_start, str_of_two_writes]
    | true =>
      by_cases htext : returned.2 = ""
      · right
        obtain ⟨hresult, hstream⟩ := hempty hok htext
        rw [hresult] at herror
        rw [hstream, htrace]
        simp only [PyResult.typeError.injEq] at herror
        refine ⟨rfl, ?_, sequences, .vectorData doubles, ?_⟩
        · rw [← herror]
          rfl
        · rw [List.mem_append, List.mem_singleton]
          right
          have hpair : returned = (true, "") := by
            rw [← hok, ← htext]
          rw [hpair]
      · rw [hfull hok htext] at herror
        exact absurd herror (by simp)

/-! ## What the fifth check reports -/

/-- The chain of lines 224-236 when `isVectorOfDouble` fails: the error is the
complaint of that reader. -/
theorem collectDistancesAndInvoke_vector_failed (helpers : Helpers) (algorithm_name : String)
    (algorithm : BuilderInterface) (args : Args) (sequences : StrVector)
    (distance_arg : PyObject) (distance_data : DataPtr) (distance_entries : Int)
    (complaint : StringStream) (world : World) (trace : List Call)
    (hfailed : (isVectorOfDoubleWith helpers.appendDoubleVector "distance" (some distance_arg)
      [] .null 0 complaint).1 = false) :
    collectDistancesAndInvoke helpers algorithm_name algorithm args sequences distance_arg
        distance_data distance_entries complaint world trace
      = ⟨.typeError (isVectorOfDoubleWith helpers.appendDoubleVector "distance"
            (some distance_arg) [] .null 0 complaint).2.2.2.2.str,
          (isVectorOfDoubleWith helpers.appendDoubleVector "distance"
            (some distance_arg) [] .null 0 complaint).2.2.2.2,
          world, trace ++ [.isVectorOfDouble]⟩ := by
  unfold collectDistancesAndInvoke
  rw [isVectorOfDoubleWith_overwrites]
  rcases isVectorOfDoubleWith_result helpers.appendDoubleVector "distance" (some distance_arg)
    [] .null 0 complaint with ⟨doubles, hread⟩ | ⟨filled, text, _, hread⟩
  · rw [hread] at hfailed
    exact absurd hfailed (by simp)
  · rw [hread]
    exact marshal_empty _ _ _

/-- The chain of lines 224-236 when `isVectorOfDouble` succeeds and the size
check of line 231 rejects: the error is the message that gives the label count,
the number of distances and the expected number. -/
theorem collectDistancesAndInvoke_size_mismatch (helpers : Helpers) (algorithm_name : String)
    (algorithm : BuilderInterface) (args : Args) (sequences : StrVector)
    (distance_arg : PyObject) (distance_data : DataPtr) (distance_entries : Int)
    (complaint : StringStream) (world : World) (trace : List Call) (doubles : DoubleVector)
    (hvector : isVectorOfDoubleWith helpers.appendDoubleVector "distance" (some distance_arg)
      [] .null 0 complaint
      = (true, doubles, .vectorData doubles, toIntptr doubles.length, complaint))
    (hsize : toSizeT (toIntptr doubles.length)
      ≠ (sequences.length * sequences.length) % 2 ^ 64) :
    collectDistancesAndInvoke helpers algorithm_name algorithm args sequences distance_arg
        distance_data distance_entries complaint world trace
      = marshal ""
          (complaint.put ("There are " ++ toString sequences.length ++ " sequences"
            ++ " but the distance matrix"
            ++ " contains " ++ toString (toIntptr doubles.length) ++ " elements"
            ++ " (should be "
            ++ toString ((sequences.length * sequences.length) % 2 ^ 64) ++ ")."))
          world (trace ++ [.isVectorOfDouble]) := by
  unfold collectDistancesAndInvoke
  rw [isVectorOfDoubleWith_overwrites, hvector]
  simp only [if_pos hsize]

/-- Whatever the two element helpers do, when the first four checks of lines
192-263 pass (name present and resolved, distances present, at least 3 labels
collected), the fifth reports as follows: a distance argument that is an array
and that `isMatrixOfDouble` rejects gives the complaint of that reader, and
`isVectorOfDouble` is not called; otherwise a failure of `isVectorOfDouble`
gives the complaint of that reader; otherwise a count that differs from the
square of the label count, compared in `size_t`, gives the message with the
three numbers. -/
theorem fifth_check_reports (helpers : Helpers) (world : World) (args : Args)
    (algorithm_name : String) (algorithm : BuilderInterface) (distance_arg : PyObject)
    (sequences : StrVector)
    (hname : args.algorithm_name = some algorithm_name)
    (hfound : world.getTreeBuilderByName algorithm_name = some algorithm)
    (hdist : args.distance_arg = some distance_arg)
    (hlabels : isVectorOfStringWith helpers.appendStrVector "sequencenames" args.sequence_arg
      [] ((StringStream.mk []).put "Error: ")
      = (true, sequences, (StringStream.mk []).put "Error: "))
    (hcount : 3 ≤ sequences.length) :
    (isMatrix distance_arg = true →
      (isMatrixOfDouble "distance" distance_arg .null 0
        ((StringStream.mk []).put "Error: ")).1 = false →
      (constructTreeWith helpers world args).result
        = .typeError (isMatrixOfDouble "distance" distance_arg .null 0
            ((StringStream.mk []).put "Error: ")).2.2.2.str ∧
      (constructTreeWith helpers world args).trace
        = [.isVectorOfString, .isMatrixOfDouble]) ∧
    ((isMatrix distance_arg = true →
        (isMatrixOfDouble "distance" distance_arg .null 0
          ((StringStream.mk []).put "Error: ")).1 = true) →
      (isVectorOfDoubleWith helpers.appendDoubleVector "distance" (some distance_arg) []
        .null 0 ((StringStream.mk []).put "Error: ")).1 = false →
      (constructTreeWith helpers world args).result
        = .typeError (isVectorOfDoubleWith helpers.appendDoubleVector "distance"
            (some distance_arg) [] .null 0 ((StringStream.mk []).put "Error: ")).2.2.2.2.str) ∧
    (∀ doubles,
      (isMatrix distance_arg = true →
        (isMatrixOfDouble "distance" distance_arg .null 0
          ((StringStream.mk []).put "Error: ")).1 = true) →
      isVectorOfDoubleWith helpers.appendDoubleVector "distance" (some distance_arg) []
          .null 0 ((StringStream.mk []).put "Error: ")
        = (true, doubles, .vectorData doubles, toIntptr doubles.length,
            (StringStream.mk []).put "Error: ") →
      toSizeT (toIntptr doubles.length) ≠ (sequences.length * sequences.length) % 2 ^ 64 →
      (constructTreeWith helpers world args).result
        = .typeError ("Error: " ++ ("There are " ++ toString sequences.length ++ " sequences"
            ++ " but the distance matrix"
            ++ " contains " ++ toString (toIntptr doubles.length) ++ " elements"
            ++ " (should be "
            ++ toString ((sequences.length * sequences.length) % 2 ^ 64) ++ ")."))) := by
  have hbody : constructTreeWith helpers world args
      = if isMatrix distance_arg = true then
          match isMatrixOfDouble "distance" distance_arg .null 0
              ((StringStream.mk []).put "Error: ") with
          | (false, _, _, complaint) =>
            marshal "" complaint world [.isVectorOfString, .isMatrixOfDouble]
          | (true, distance_data, distance_entries, complaint) =>
            collectDistancesAndInvoke helpers algorithm_name algorithm args sequences
              distance_arg distance_data distance_entries complaint world
              [.isVectorOfString, .isMatrixOfDouble]
        else
          collectDistancesAndInvoke helpers algorithm_name algorithm args sequences
            distance_arg .null 0 ((StringStream.mk []).put "Error: ") world
            [.isVectorOfString] := by
    unfold constructTreeWith validateAndInvoke
    simp only [hname, hfound, hdist, hlabels, if_neg (Nat.not_lt.mpr hcount)]
  have hchain : (isMatrix distance_arg = true →
        (isMatrixOfDouble "distance" distance_arg .null 0
          ((StringStream.mk []).put "Error: ")).1 = true) →
      ∃ distance_data distance_entries trace,
        constructTreeWith helpers world args
          = collectDistancesAndInvoke helpers algorithm_name algorithm args sequences
              distance_arg distance_data distance_entries
              ((StringStream.mk []).put "Error: ") world trace := by
    intro hmatrix
    rw [hbody]
    by_cases hismatrix : isMatrix distance_arg = true
    · rw [if_pos hismatrix]
      rcases isMatrixOfDouble_result "distance" distance_arg .null 0
        ((StringStream.mk []).put "Error: ") with ⟨matrix, _, hread⟩ | ⟨text, _, hread⟩
      · rw [hread]
        exact ⟨_, _, _, rfl⟩
      · have hok := hmatrix hismatrix
        rw [hread] at hok
        exact absurd hok (by simp)
    · rw [if_neg hismatrix]
      exact ⟨_, _, _, rfl⟩
  refine ⟨?_, ?_, ?_⟩
  · intro hismatrix hrejected
    rw [hbody, if_pos hismatrix]
    rcases isMatrixOfDouble_result "distance" distance_arg .null 0
      ((StringStream.mk []).put "Error: ") with ⟨matrix, _, hread⟩ | ⟨text, _, hread⟩
    · rw [hread] at hrejected
      exact absurd hrejected (by simp)
    · rw [hread]
      simp only [marshal_empty, and_self]
  · intro hmatrix hfailed
    obtain ⟨distance_data, distance_entries, trace, hout⟩ := hchain hmatrix
    rw [hout, collectDistancesAndInvoke_vector_failed helpers algorithm_name algorithm args
      sequences distance_arg distance_data distance_entries _ world trace hfailed]
  · intro doubles hmatrix hvector hsize
    obtain ⟨distance_data, distance_entries, trace, hout⟩ := hchain hmatrix
    rw [hout, collectDistancesAndInvoke_size_mismatch helpers algorithm_name algorithm args
      sequences distance_arg distance_data distance_entries _ world trace doubles hvector hsize,
      marshal_empty, put_after_start, str_of_two_writes]

/-! ## The claims -/

/-- C1 (the code departs from the claim). The call of the specification's
scenario, `constructTree("NJ", ["A","B","C"], [0,1,2,1,0,3,2,3,0], 0, 6, 0)`
with `NJ` registered and its builder succeeding with the text `(A,B,C);`,
does not return that text: it raises the error that item 0 of the labels could
not be converted, after calling `isVectorOfString` only.  That is what lines
192-263 do on the locals the call is to produce; the call itself returns from
the parse at line 190 and gives no text either. -/
theorem sample_call_is_rejected :
    sampleWorld.getTreeBuilderByName "NJ" = some fixedTreeBuilder ∧
    (∀ silent threads labels data,
      fixedTreeBuilder.constructTreeStringInMemory silent threads labels data
        = (true, "(A,B,C);")) ∧
    (constructTreeBody sampleWorld sampleArgs).result
      = .typeError "Error: sequencenames could not convert item 0 to string." ∧
    (constructTreeBody sampleWorld sampleArgs).trace = [.isVectorOfString] ∧
    pydecenttree_constructTree sampleWorld sampleCall = .parseFailed :=
  ⟨rfl, fun _ _ _ _ => rfl, by decide, by decide, rfl⟩

/-- C2. Whatever the two element helpers do, if a call of `constructTree` has
called `obeyThreadCount` or the builder's `constructTreeStringInMemory`, then
the algorithm name was present and resolved, a distance argument was present,
`isVectorOfString` succeeded with at least 3 labels, every distance reader that
ran succeeded, and the size check passed: `distance_entries` equals the square
of the label count modulo `2 ^ 64`, and equals it as an integer whenever that
square fits `intptr_t`.  The body of the source's function is the instance
`helpers = sourceHelpers`. -/
theorem invocation_requires_all_checks (helpers : Helpers) (world : World) (args : Args)
    (hinvoked :
      (∃ number_of_threads,
        Call.obeyThreadCount number_of_threads ∈ (constructTreeWith helpers world args).trace) ∨
      (∃ sequences distance_data returned,
        Call.constructTreeStringInMemory sequences distance_data returned
          ∈ (constructTreeWith helpers world args).trace)) :
    ∃ algorithm_name algorithm distance_arg sequences doubles,
      args.algorithm_name = some algorithm_name ∧
      world.getTreeBuilderByName algorithm_name = some algorithm ∧
      args.distance_arg = some distance_arg ∧
      isVectorOfStringWith helpers.appendStrVector "sequencenames" args.sequence_arg []
          ((StringStream.mk []).put "Error: ")
        = (true, sequences, (StringStream.mk []).put "Error: ") ∧
      3 ≤ sequences.length ∧
      (isMatrix distance_arg = true →
        (isMatrixOfDouble "distance" distance_arg .null 0
          ((StringStream.mk []).put "Error: ")).1 = true) ∧
      (isVectorOfDoubleWith helpers.appendDoubleVector "distance" (some distance_arg) []
          .null 0 ((StringStream.mk []).put "Error: ")
        = (true, doubles, .vectorData doubles, toIntptr doubles.length,
            (StringStream.mk []).put "Error: ")) ∧
      toSizeT (toIntptr doubles.length) = (sequences.length * sequences.length) % 2 ^ 64 ∧
      (sequences.length * sequences.length < 2 ^ 63 →
        toIntptr doubles.length = ((sequences.length * sequences.length : Nat) : Int)) := by
  rcases constructTreeWith_cases helpers world args with
    ⟨text, trace, _, hreaders, hout⟩ |
    ⟨algorithm_name, algorithm, distance_arg, sequences, doubles, trace,
      h1, h2, h3, h4, h5, h6, h7, h8, _, _⟩
  · rw [hout] at hinvoked
    rcases hinvoked with ⟨n, hmem⟩ | ⟨s, d, r, hmem⟩
    · exact absurd (hreaders _ hmem) (by simp [Call.isReader])
    · exact absurd (hreaders _ hmem) (by simp [Call.isReader])
  · exact ⟨algorithm_name, algorithm, distance_arg, sequences, doubles, h1, h2, h3, h4, h5,
      h6, h7, h8, fun hfit => entries_eq_square _ _ hfit h8⟩

/-- C2, on a call that reaches the builder: helpers that report success, the
registered `NJ`, three labels and nine distances. -/
theorem invocation_requires_all_checks_witness :
    Call.obeyThreadCount 0 ∈ (constructTreeWith reportingHelpers sampleWorld sampleArgs).trace ∧
    ∃ algorithm_name algorithm distance_arg sequences doubles,
      sampleArgs.algorithm_name = some algorithm_name ∧
      sampleWorld.getTreeBuilderByName algorithm_name = some algorithm ∧
      sampleArgs.distance_arg = some distance_arg ∧
      isVectorOfStringWith reportingHelpers.appendStrVector "sequencenames"
          sampleArgs.sequence_arg [] ((StringStream.mk []).put "Error: ")
        = (true, sequences, (StringStream.mk []).put "Error: ") ∧
      3 ≤ sequences.length ∧
      (isMatrix distance_arg = true →
        (isMatrixOfDouble "distance" distance_arg .null 0
          ((StringStream.mk []).put "Error: ")).1 = true) ∧
      (isVectorOfDoubleWith reportingHelpers.appendDoubleVector "distance" (some distance_arg)
          [] .null 0 ((StringStream.mk []).put "Error: ")
        = (true, doubles, .vectorData doubles, toIntptr doubles.length,
            (StringStream.mk []).put "Error: ")) ∧
      toSizeT (toIntptr doubles.length) = (sequences.length * sequences.length) % 2 ^ 64 ∧
      (sequences.length * sequences.length < 2 ^ 63 →
        toIntptr doubles.length = ((sequences.length * sequences.length : Nat) : Int)) :=
  ⟨by decide,
    invocation_requires_all_checks reportingHelpers sampleWorld sampleArgs
      (Or.inl ⟨0, by decide⟩)⟩

/-- C3 (the code departs from the claim). With `NJ` registered and distances
supplied, zero labels give the claimed message with count 0, but one label and
two labels give the complaint about item 0 instead of the message with the
count 1 or 2; the builder is not called in any of the three calls.  That is
what lines 192-263 do on the locals the calls are to produce; the calls
themselves return from the parse at line 190, whatever the labels. -/
theorem too_few_labels_messages :
    (constructTreeBody sampleWorld
        (callWith (some "NJ") (some (listObject [])) (some distances3x3))).result
      = .typeError "Error: sequencenames contains only 0 sequences (must have at least 3)." ∧
    (constructTreeBody sampleWorld
        (callWith (some "NJ") (some (listObject [textObject "A"])) (some distances3x3))).result
      = .typeError "Error: sequencenames could not convert item 0 to string." ∧
    (constructTreeBody sampleWorld
        (callWith (some "NJ") (some (listObject [textObject "A", textObject "B"]))
          (some distances3x3))).result
      = .typeError "Error: sequencenames could not convert item 0 to string." ∧
    (constructTreeBody sampleWorld
        (callWith (some "NJ") (some (listObject [textObject "A"])) (some distances3x3))).trace
      = [.isVectorOfString] ∧
    (∀ sequences,
      pydecenttree_constructTree sampleWorld (pythonCall "NJ" sequences distances3x3)
        = .parseFailed) :=
  ⟨by decide, by decide, by decide, by decide,
    fun _ => constructTree_returns_from_parse _ _⟩

/-- C4 (the code departs from the claim). With three labels and a distance
argument of two elements, given as a list of numbers or as a 1-dimensional
`double` array, the error is the complaint about item 0 of the labels, not the
message about 3 sequences, 2 elements and 9 expected; no distance reader is
called.  That is what lines 192-263 do on the locals the calls are to produce;
the calls themselves return from the parse at line 190, whatever the
distances. -/
theorem size_mismatch_is_not_reported :
    (constructTreeBody sampleWorld
        (callWith (some "NJ") (some labelsABC) (some (listObject [number0, number1])))).result
      = .typeError "Error: sequencenames could not convert item 0 to string." ∧
    (constructTreeBody sampleWorld
        (callWith (some "NJ") (some labelsABC)
          (some (arrayObject doubleVector2 [number0, number1])))).result
      = .typeError "Error: sequencenames could not convert item 0 to string." ∧
    (constructTreeBody sampleWorld
        (callWith (some "NJ") (some labelsABC)
          (some (arrayObject doubleVector2 [number0, number1])))).trace
      = [.isVectorOfString] ∧
    (∀ distances,
      pydecenttree_constructTree sampleWorld (pythonCall "NJ" labelsABC distances)
        = .parseFailed) :=
  ⟨by decide, by decide, by decide, fun _ => constructTree_returns_from_parse _ _⟩

/-- C5 (the code departs from the claim). The call
`constructTree("XYZ", ["A","B","C"], [0,1,2,1,0,3,2,3,0], 0, 6, 0)`, with `XYZ`
not registered, does not fail with `Error: Algorithm XYZ not found.`: the name
is converted, the unit `O!` then takes the address of `sequence_arg` for a type
object and rejects the labels, the parse of lines 184-188 fails and the function
returns from line 190, before the name is looked up.  Lines 192-263, run on the
locals the call is to produce, do give that message, call nothing and leave the
state as it was. -/
theorem unknown_algorithm_call_ends_in_parse :
    sampleWorld.getTreeBuilderByName "XYZ" = none ∧
    (textArgument "XYZ").asCString = some "XYZ" ∧
    PyObject_TypeCheck labelsABC .sequence_arg = false ∧
    PyArg_ParseTupleAndKeywords (pythonCall "XYZ" labelsABC distances3x3) = none ∧
    pydecenttree_constructTree sampleWorld (pythonCall "XYZ" labelsABC distances3x3)
      = .parseFailed ∧
    (constructTreeBody sampleWorld
        (callWith (some "XYZ") (some labelsABC) (some distances3x3))).result
      = .typeError "Error: Algorithm XYZ not found." ∧
    (constructTreeBody sampleWorld
        (callWith (some "XYZ") (some labelsABC) (some distances3x3))).trace = [] ∧
    (constructTreeBody sampleWorld
        (callWith (some "XYZ") (some labelsABC) (some distances3x3))).world.factory
      = sampleWorld.factory :=
  ⟨rfl, rfl, rfl, rfl, rfl, by decide, by decide, rfl⟩

/-- C6 (the code departs from the claim). No call produces one of the claimed
diagnostics: the call without arguments, the call `constructTree("NJ", ["A","B","C"])`
without distances and the full call of the specification's scenario all return
from line 190, where the exception is the parser's and the checks of the body
have not begun.  Lines 192-263, run on given locals, report an absent name, then
an unknown name, then absent distances whatever the sequences are, then the
labels; there the check of the labels fails on every non-empty list, so the
fifth check is not reached. -/
theorem no_call_reaches_the_checks :
    pydecenttree_constructTree sampleWorld [] = .parseFailed ∧
    pydecenttree_constructTree sampleWorld [textArgument "NJ", objectArgument labelsABC]
      = .parseFailed ∧
    pydecenttree_constructTree sampleWorld sampleCall = .parseFailed ∧
    (constructTreeBody sampleWorld (callWith none none none)).result
      = .typeError "Error: Algorithm name not specified" ∧
    (constructTreeBody sampleWorld (callWith (some "XYZ") none none)).result
      = .typeError "Error: Algorithm XYZ not found." ∧
    (constructTreeBody sampleWorld (callWith (some "NJ") none none)).result
      = .typeError "Error: No distances were supplied" ∧
    (constructTreeBody sampleWorld (callWith (some "NJ") (some labelsABC) none)).result
      = .typeError "Error: No distances were supplied" ∧
    (constructTreeBody sampleWorld
        (callWith (some "NJ") (some labelsABC) (some (listObject [])))).result
      = .typeError "Error: sequencenames could not convert item 0 to string." ∧
    (constructTreeBody sampleWorld sampleArgs).result
      = .typeError "Error: sequencenames could not convert item 0 to string." ∧
    (constructTreeBody sampleWorld sampleArgs).trace = [.isVectorOfString] :=
  ⟨rfl, rfl, rfl, by decide, by decide, by decide, by decide, by decide, by decide, by decide⟩

/-- C8. Whatever the two element helpers do: when the builder was invoked and
returned `false`, then whatever text it left, `constructTree` raises the error
`Error: Call to constructTreeStringInMemory failed  for algorithm <name>.`
naming the algorithm; and when `constructTree` returns a text, the builder was
invoked, returned `true` and left exactly that text, which is not empty.  The
body of the source's function is the instance `helpers = sourceHelpers`. -/
theorem builder_failure_is_an_error (helpers : Helpers) (world : World) (args : Args) :
    (∀ sequences distance_data text,
      Call.constructTreeStringInMemory sequences distance_data (false, text)
        ∈ (constructTreeWith helpers world args).trace →
      ∃ algorithm_name, args.algorithm_name = some algorithm_name ∧
        (constructTreeWith helpers world args).result
          = .typeError ("Error: Call to constructTreeStringInMemory failed  for algorithm "
              ++ algorithm_name ++ ".")) ∧
    (∀ tree, (constructTreeWith helpers world args).result = .unicode tree →
      tree ≠ "" ∧
      ∃ sequences distance_data,
        Call.constructTreeStringInMemory sequences distance_data (true, tree)
          ∈ (constructTreeWith helpers world args).trace) := by
  rcases constructTreeWith_cases helpers world args with
    ⟨text, trace, _, hreaders, hout⟩ |
    ⟨algorithm_name, algorithm, distance_arg, sequences, doubles, trace,
      hname, _, _, _, _, _, _, _, hreaders, hout⟩
  · rw [hout]
    constructor
    · intro sequences distance_data text hmem
      exact absurd (hreaders _ hmem) (by simp [Call.isReader])
    · intro tree htree
      exact absurd htree (by simp)
  · obtain ⟨returned, quiet, hquiet, htrace, hfalse, hempty, hfull⟩ :=
      invoke_cases algorithm_name algorithm args.verbosity sequences (.vectorData doubles)
        ((StringStream.mk []).put "Error: ")
        (obeyThreadCount args.number_of_threads ((StringStream.mk []).put "Error: ") world).2.2
        (trace ++ [.obeyThreadCount args.number_of_threads])
    rw [hout, htrace]
    have hlast : ∀ call, call ∈ trace ++ [Call.obeyThreadCount args.number_of_threads] ++ quiet
        → ∀ s d r, call ≠ Call.constructTreeStringInMemory s d r := by
      intro call hcall s d r heq
      subst heq
      simp only [List.mem_append, List.mem_singleton] at hcall
      rcases hcall with (hcall | hcall) | hcall
      · exact absurd (hreaders _ hcall) (by simp [Call.isReader])
      · exact absurd hcall (by simp)
      · rcases hquiet with hq | hq <;> rw [hq] at hcall <;> simp at hcall
    constructor
    · intro s d text hmem
      rw [List.mem_append, List.mem_singleton] at hmem
      rcases hmem with hmem | hmem
      · exact absurd rfl (hlast _ hmem s d (false, text))
      · simp only [Call.constructTreeStringInMemory.injEq] at hmem
        obtain ⟨_, _, hreturned⟩ := hmem
        refine ⟨algorithm_name, hname, ?_⟩
        rw [hfalse (by rw [← hreturned])]
        simp only [put_after_start, str_of_two_writes, ← String.append_assoc]
        rfl
    · intro tree htree
      cases hok : returned.1 with
      | false =>
        rw [hfalse hok] at htree
        exact absurd htree (by simp)
      | true =>
        by_cases htext : returned.2 = ""
        · rw [hempty hok htext] at htree
          exact absurd htree (by simp)
        · rw [hfull hok htext] at htree
          simp only [PyResult.unicode.injEq] at htree
          subst htree
          refine ⟨htext, sequences, .vectorData doubles, ?_⟩
          rw [List.mem_append, List.mem_singleton]
          right
          have hpair : returned = (true, returned.2) := by
            rw [← hok]
          rw [← hpair]

/-- C8, with helpers that report success: the builder `BAD` returns `false`
after writing `(A,`, and the builder `NJ` returns `true` with `(A,B,C);`. -/
theorem builder_failure_is_an_error_witness :
    (Call.constructTreeStringInMemory ["A", "B", "C"]
        (.vectorData [double0, double1, double2, double1, double0, double3, double2, double3,
          double0]) (false, "(A,")
        ∈ (constructTreeWith reportingHelpers sampleWorld
            (callWith (some "BAD") (some labelsABC) (some distances3x3))).trace ∧
      ∃ algorithm_name,
        (callWith (some "BAD") (some labelsABC) (some distances3x3)).algorithm_name
          = some algorithm_name ∧
        (constructTreeWith reportingHelpers sampleWorld
            (callWith (some "BAD") (some labelsABC) (some distances3x3))).result
          = .typeError ("Error: Call to constructTreeStringInMemory failed  for algorithm "
              ++ algorithm_name ++ ".")) ∧
    ((constructTreeWith reportingHelpers sampleWorld sampleArgs).result = .unicode "(A,B,C);" ∧
      "(A,B,C);" ≠ "" ∧
      ∃ sequences distance_data,
        Call.constructTreeStringInMemory sequences distance_data (true, "(A,B,C);")
          ∈ (constructTreeWith reportingHelpers sampleWorld sampleArgs).trace) :=
  ⟨⟨by decide,
      (builder_failure_is_an_error reportingHelpers sampleWorld
        (callWith (some "BAD") (some labelsABC) (some distances3x3))).1 ["A", "B", "C"]
        (.vectorData [double0, double1, double2, double1, double0, double3, double2, double3,
          double0]) "(A," (by decide)⟩,
    by decide,
    (builder_failure_is_an_error reportingHelpers sampleWorld sampleArgs).2 "(A,B,C);"
      (by decide)⟩

/-- C9. `isMatrixOfDouble` returns true exactly for a NumPy array of element
type `double` with 1 or 2 dimensions.  An array of another element type is
rejected with `<name> matrix is not a matrix of type Float`; a `double` array
with 0 or with 3 or more dimensions is rejected with the complaint that gives
its number of dimensions; and every rejection adds exactly one non-empty
complaint to the stream. -/
theorem isMatrixOfDouble_accepts_iff (matrix_name : String) (possible_matrix : PyObject)
    (element_data : DataPtr) (element_count : Int) (complaint : StringStream) :
    ((isMatrixOfDouble matrix_name possible_matrix element_data element_count complaint).1
        = true ↔
      ∃ matrix, asPyArrayObject possible_matrix = some matrix ∧
        matrix.type_num = NPY_DOUBLE ∧ (matrix.nd = 1 ∨ matrix.nd = 2)) ∧
    (∀ matrix, asPyArrayObject possible_matrix = some matrix →
      matrix.type_num ≠ NPY_DOUBLE →
      isMatrixOfDouble matrix_name possible_matrix element_data element_count complaint
        = (false, element_data, 0,
            complaint.put (matrix_name ++ " matrix" ++ " is not a matrix of type Float"))) ∧
    (∀ matrix, asPyArrayObject possible_matrix = some matrix →
      matrix.type_num = NPY_DOUBLE → (matrix.nd = 0 ∨ 3 ≤ matrix.nd) →
      isMatrixOfDouble matrix_name possible_matrix element_data element_count complaint
        = (false, element_data, 0,
            complaint.put (matrix_name ++ "matrix" ++ " has " ++ toString matrix.nd
              ++ " dimensions" ++ " (only 1 and 2 dimensional matrices are allowed)."))) ∧
    ((isMatrixOfDouble matrix_name possible_matrix element_data element_count complaint).1
        = false →
      ∃ text, text ≠ "" ∧
        (isMatrixOfDouble matrix_name possible_matrix element_data element_count
          complaint).2.2.2.writes = complaint.writes ++ [text]) := by
  refine ⟨?_, ?_, ?_, ?_⟩
  · unfold isMatrixOfDouble
    cases harr : asPyArrayObject possible_matrix with
    | none => simp
    | some matrix =>
      simp only
      by_cases htype : matrix.type_num ≠ NPY_DOUBLE
      · rw [if_pos htype]
        simp [htype]
      · rw [if_neg htype]
        have htype2 : matrix.type_num = NPY_DOUBLE := not_not.mp htype
        by_cases hnd : matrix.nd < 1 ∨ 2 < matrix.nd
        · rw [if_pos hnd]
          simp only [Bool.false_eq_true, Option.some.injEq, exists_eq_left', false_iff,
            not_and]
          intro _
          omega
        · rw [if_neg hnd]
          simp only [Option.some.injEq, exists_eq_left', true_iff]
          exact ⟨htype2, by omega⟩
  · intro matrix harr htype
    unfold isMatrixOfDouble
    simp only [harr, if_pos htype]
  · intro matrix harr htype hnd
    unfold isMatrixOfDouble
    have hnot : ¬ matrix.type_num ≠ NPY_DOUBLE := not_not.mpr htype
    have hbad : matrix.nd < 1 ∨ 2 < matrix.nd := by omega
    simp only [harr, if_neg hnot, if_pos hbad]
  · intro hfalse
    rcases isMatrixOfDouble_result matrix_name possible_matrix element_data element_count
      complaint with ⟨matrix, _, hread⟩ | ⟨text, htext, hread⟩
    · rw [hread] at hfalse
      exact absurd hfalse (by simp)
    · rw [hread]
      exact ⟨text, ne_empty_of_length_pos text htext, rfl⟩

/-- C9, on a 3 x 3 `double` array (accepted), an integer array, a `double`
array of 3 dimensions and one of 0 dimensions. -/
theorem isMatrixOfDouble_accepts_iff_witness :
    (isMatrixOfDouble "distance" (arrayObject doubleMatrix3x3 []) .null 0
        ((StringStream.mk []).put "Error: ")).1 = true ∧
    isMatrixOfDouble "distance" (arrayObject longVector2 []) .null 0
        ((StringStream.mk []).put "Error: ")
      = (false, .null, 0,
          ⟨["Error: ", "distance matrix is not a matrix of type Float"]⟩) ∧
    isMatrixOfDouble "distance" (arrayObject doubleCube []) .null 0
        ((StringStream.mk []).put "Error: ")
      = (false, .null, 0,
          ⟨["Error: ", "distancematrix has 3 dimensions"
            ++ " (only 1 and 2 dimensional matrices are allowed)."]⟩) ∧
    isMatrixOfDouble "distance" (arrayObject doubleScalarArray []) .null 0
        ((StringStream.mk []).put "Error: ")
      = (false, .null, 0,
          ⟨["Error: ", "distancematrix has 0 dimensions"
            ++ " (only 1 and 2 dimensional matrices are allowed)."]⟩) ∧
    ∃ text, text ≠ "" ∧
      (isMatrixOfDouble "distance" (arrayObject longVector2 []) .null 0
        ((StringStream.mk []).put "Error: ")).2.2.2.writes
        = ((StringStream.mk []).put "Error: ").writes ++ [text] :=
  ⟨(isMatrixOfDouble_accepts_iff "distance" (arrayObject doubleMatrix3x3 []) .null 0
      ((StringStream.mk []).put "Error: ")).1.2
      ⟨doubleMatrix3x3, rfl, rfl, Or.inr rfl⟩,
    (isMatrixOfDouble_accepts_iff "distance" (arrayObject longVector2 []) .null 0
      ((StringStream.mk []).put "Error: ")).2.1 longVector2 rfl (by decide),
    (isMatrixOfDouble_accepts_iff "distance" (arrayObject doubleCube []) .null 0
      ((StringStream.mk []).put "Error: ")).2.2.1 doubleCube rfl rfl (Or.inr (by decide)),
    (isMatrixOfDouble_accepts_iff "distance" (arrayObject doubleScalarArray []) .null 0
      ((StringStream.mk []).put "Error: ")).2.2.1 doubleScalarArray rfl rfl (Or.inl rfl),
    (isMatrixOfDouble_accepts_iff "distance" (arrayObject longVector2 []) .null 0
      ((StringStream.mk []).put "Error: ")).2.2.2 (by decide)⟩

/-- C10. For every `double` array with 1 or 2 dimensions `isMatrixOfDouble`
sets `element_count` to the product of the dimension sizes (the size itself
for one dimension, rows times columns for two) and `element_data` to the
array's own storage; on every rejected input `element_count` is 0. -/
theorem isMatrixOfDouble_count_and_data (matrix_name : String) (possible_matrix : PyObject)
    (element_data : DataPtr) (element_count : Int) (complaint : StringStream) :
    (∀ matrix, asPyArrayObject possible_matrix = some matrix →
      matrix.type_num = NPY_DOUBLE → (matrix.nd = 1 ∨ matrix.nd = 2) →
      isMatrixOfDouble matrix_name possible_matrix element_data element_count complaint
        = (true, .arrayData matrix.data, ((matrix.dimensions.prod : Nat) : Int), complaint) ∧
      (∀ size, matrix.dimensions = [size] →
        (isMatrixOfDouble matrix_name possible_matrix element_data element_count
          complaint).2.2.1 = (size : Int)) ∧
      (∀ rows columns, matrix.dimensions = [rows, columns] →
        (isMatrixOfDouble matrix_name possible_matrix element_data element_count
          complaint).2.2.1 = (rows : Int) * (columns : Int))) ∧
    ((isMatrixOfDouble matrix_name possible_matrix element_data element_count complaint).1
        = false →
      (isMatrixOfDouble matrix_name possible_matrix element_data element_count
        complaint).2.2.1 = 0) := by
  constructor
  · intro matrix harr htype hnd
    have hout : isMatrixOfDouble matrix_name possible_matrix element_data element_count
        complaint
        = (true, .arrayData matrix.data, ((matrix.dimensions.prod : Nat) : Int),
            complaint) := by
      unfold isMatrixOfDouble
      have hnot : ¬ matrix.type_num ≠ NPY_DOUBLE := not_not.mpr htype
      have hgood : ¬ (matrix.nd < 1 ∨ 2 < matrix.nd) := by omega
      simp only [harr, if_neg hnot, if_neg hgood, multiplyDimensions_eq_prod matrix hnd]
    rw [hout]
    refine ⟨rfl, ?_, ?_⟩
    · intro size hdims
      simp only [hdims, List.prod_cons, List.prod_nil, mul_one]
    · intro rows columns hdims
      simp only [hdims, List.prod_cons, List.prod_nil, mul_one]
      push_cast
      rfl
  · intro hfalse
    rcases isMatrixOfDouble_result matrix_name possible_matrix element_data element_count
      complaint with ⟨matrix, _, hread⟩ | ⟨text, _, hread⟩
    · rw [hread] at hfalse
      exact absurd hfalse (by simp)
    · rw [hread]

/-- C10, on a 3 x 3 `double` array, a `double` array of length 2 and an
integer array. -/
theorem isMatrixOfDouble_count_and_data_witness :
    isMatrixOfDouble "distance" (arrayObject doubleMatrix3x3 []) .null 0
        ((StringStream.mk []).put "Error: ")
      = (true, .arrayData doubleMatrix3x3.data, 9, (StringStream.mk []).put "Error: ") ∧
    (isMatrixOfDouble "distance" (arrayObject doubleVector2 []) .null 0
        ((StringStream.mk []).put "Error: ")).2.2.1 = 2 ∧
    (isMatrixOfDouble "distance" (arrayObject longVector2 []) .null 7
        ((StringStream.mk []).put "Error: ")).2.2.1 = 0 :=
  ⟨((isMatrixOfDouble_count_and_data "distance" (arrayObject doubleMatrix3x3 []) .null 0
      ((StringStream.mk []).put "Error: ")).1 doubleMatrix3x3 rfl rfl (Or.inr rfl)).1,
    ((isMatrixOfDouble_count_and_data "distance" (arrayObject doubleVector2 []) .null 0
      ((StringStream.mk []).put "Error: ")).1 doubleVector2 rfl rfl (Or.inl rfl)).2.1 2 rfl,
    (isMatrixOfDouble_count_and_data "distance" (arrayObject longVector2 []) .null 7
      ((StringStream.mk []).put "Error: ")).2 (by decide)⟩

/-- C11 (the code departs from the claim). With three labels and the nine
distances as a 1-dimensional `double` array, the call returns from the parse at
line 190, and lines 192-263, run on the locals the call is to produce, stop at
the labels and run neither distance reader.  Where the label step lets the call
through (helpers that report success), the chain of lines 219-225 runs
`isVectorOfDouble` after `isMatrixOfDouble` has succeeded, and the builder is
given the vector's copy, not the array's storage; for the same distances as a
3 x 3 `double` array both readers run as well and `isVectorOfDouble` rejects
the array. -/
theorem typed_array_is_read_by_both_readers :
    (constructTreeBody sampleWorld
        (callWith (some "NJ") (some labelsABC) (some distancesArray9))).trace
      = [.isVectorOfString] ∧
    (constructTreeBody sampleWorld
        (callWith (some "NJ") (some labelsABC) (some distancesArray9))).result
      = .typeError "Error: sequencenames could not convert item 0 to string." ∧
    isMatrix distancesArray9 = true ∧
    (constructTreeWith reportingHelpers sampleWorld
        (callWith (some "NJ") (some labelsABC) (some distancesArray9))).trace
      = [.isVectorOfString, .isMatrixOfDouble, .isVectorOfDouble, .obeyThreadCount 0,
          .beSilent,
          .constructTreeStringInMemory ["A", "B", "C"]
            (.vectorData [double0, double1, double2, double1, double0, double3, double2,
              double3, double0])
            (true, "(A,B,C);")] ∧
    (isMatrixOfDouble "distance" distancesArray9 .null 0
        ((StringStream.mk []).put "Error: ")).2.1
      = .arrayData doubleVector9.data ∧
    (constructTreeWith reportingHelpers sampleWorld
        (callWith (some "NJ") (some labelsABC) (some distancesMatrix3x3))).trace
      = [.isVectorOfString, .isMatrixOfDouble, .isVectorOfDouble] ∧
    (constructTreeWith reportingHelpers sampleWorld
        (callWith (some "NJ") (some labelsABC) (some distancesMatrix3x3))).result
      = .typeError "Error: distance could not convert item 0 to string." ∧
    (∀ distances,
      pydecenttree_constructTree sampleWorld (pythonCall "NJ" labelsABC distances)
        = .parseFailed) :=
  ⟨by decide, by decide, by decide, by decide, by decide, by decide, by decide,
    fun _ => constructTree_returns_from_parse _ _⟩

/-- C12 (the code departs from the claim). With three labels, the nine distances
as a list of numbers, as a 1-dimensional and as a 3 x 3 `double` array all
return from the parse at line 190; in lines 192-263, run on the locals these
calls are to produce, all three end in the same error at the labels, and none
reaches the size check.  Where the
label step lets the call through (helpers that report success), the list and
the 1-dimensional array give the tree text while the 3 x 3 array is rejected by
`isVectorOfDouble`. -/
theorem array_and_list_stop_before_size_check :
    (constructTreeBody sampleWorld sampleArgs).result
      = .typeError "Error: sequencenames could not convert item 0 to string." ∧
    (constructTreeBody sampleWorld
        (callWith (some "NJ") (some labelsABC) (some distancesArray9))).result
      = .typeError "Error: sequencenames could not convert item 0 to string." ∧
    (constructTreeBody sampleWorld
        (callWith (some "NJ") (some labelsABC) (some distancesMatrix3x3))).result
      = .typeError "Error: sequencenames could not convert item 0 to string." ∧
    (constructTreeBody sampleWorld sampleArgs).trace = [.isVectorOfString] ∧
    (constructTreeBody sampleWorld
        (callWith (some "NJ") (some labelsABC) (some distancesMatrix3x3))).trace
      = [.isVectorOfString] ∧
    (constructTreeWith reportingHelpers sampleWorld sampleArgs).result
      = .unicode "(A,B,C);" ∧
    (constructTreeWith reportingHelpers sampleWorld
        (callWith (some "NJ") (some labelsABC) (some distancesArray9))).result
      = .unicode "(A,B,C);" ∧
    (constructTreeWith reportingHelpers sampleWorld
        (callWith (some "NJ") (some labelsABC) (some distancesMatrix3x3))).result
      = .typeError "Error: distance could not convert item 0 to string." ∧
    (∀ distances,
      pydecenttree_constructTree sampleWorld (pythonCall "NJ" labelsABC distances)
        = .parseFailed) :=
  ⟨by decide, by decide, by decide, by decide, by decide, by decide, by decide, by decide,
    fun _ => constructTree_returns_from_parse _ _⟩

/-- C13 (the code departs from the claim). On the labels `["A","B","C"]`, all
text-coercible, `isVectorOfString` returns false with the complaint about item 0,
having appended only `A`; on a sequence whose first non-coercible element is at
index 1 the complaint reports index 0; an argument that is no sequence gets the
claimed complaint `sequencenames is not a sequence.`. -/
theorem isVectorOfString_rejects_coercible_labels :
    isVectorOfString "sequencenames" (some labelsABC) [] ((StringStream.mk []).put "Error: ")
      = (false, ["A"],
          ⟨["Error: ", "sequencenames could not convert item 0 to string."]⟩) ∧
    isVectorOfString "sequencenames"
        (some (listObject [textObject "A", unprintableObject, textObject "C"])) []
        ((StringStream.mk []).put "Error: ")
      = (false, ["A"],
          ⟨["Error: ", "sequencenames could not convert item 0 to string."]⟩) ∧
    isVectorOfString "sequencenames" (some (textObject "A")) []
        ((StringStream.mk []).put "Error: ")
      = (false, [], ⟨["Error: ", "sequencenames is not a sequence."]⟩) := by
  decide

/-- C14 (the code departs from the claim). On the nine numeric distances
`isVectorOfDouble` returns false with the complaint about item 0, having
appended only the first value and leaving a null pointer and the count 0; on a
sequence whose first non-numeric element is at index 1 the complaint reports
index 0. -/
theorem isVectorOfDouble_rejects_numeric_distances :
    isVectorOfDouble "distance" (some distances3x3) [] .null 0
        ((StringStream.mk []).put "Error: ")
      = (false, [double0], .null, 0,
          ⟨["Error: ", "distance could not convert item 0 to string."]⟩) ∧
    isVectorOfDouble "distance" (some (listObject [number1, textObject "x"])) [] .null 0
        ((StringStream.mk []).put "Error: ")
      = (false, [double1], .null, 0,
          ⟨["Error: ", "distance could not convert item 0 to string."]⟩) := by
  decide

/-- C15 (the code departs from the claim). In a build with `_OPENMP`, started
with the thread setting 4, the platform allows 4 threads.  After
`obeyThreadCount(2)` the request `obeyThreadCount(3)`, positive and not above
that maximum, is not obeyed and the thread count stays 2: line 152 compares the
request with `omp_get_max_threads()`, which then returns the lowered setting 2.
The same request on the state of the start is obeyed. -/
theorem raised_request_is_refused_after_lowering :
    sampleWorld.openmp = true ∧
    omp_get_max_threads sampleWorld = 4 ∧
    (obeyThreadCount 2 ((StringStream.mk []).put "Error: ") sampleWorld).2.2.nthreads_var = 2 ∧
    omp_get_max_threads
        (obeyThreadCount 2 ((StringStream.mk []).put "Error: ") sampleWorld).2.2 = 2 ∧
    (0 : Int) < 3 ∧ (3 : Int) ≤ 4 ∧
    (obeyThreadCount 3 ((StringStream.mk []).put "Error: ")
        (obeyThreadCount 2 ((StringStream.mk []).put "Error: ") sampleWorld).2.2).2.2.nthreads_var
      = 2 ∧
    (obeyThreadCount 3 ((StringStream.mk []).put "Error: ") sampleWorld).2.2.nthreads_var
      = 3 := by
  decide

/-- C16 (the code departs from the claim). Two sequential calls of the
specification's scenario, with `number_of_threads = 0` and a builder that
returns the same text for all inputs, return no tree text: both return from the
parse at line 190, and lines 192-263, run on the locals the call is to produce,
raise the same error about item 0 of the labels twice, leaving the state as it
was.  Where a text is returned (helpers that report success) the first call has
changed the registry: with `verbosity = 0` it has set the silent flag of the
builder registered as `NJ`. -/
theorem valid_call_twice_returns_no_tree :
    sampleArgs.number_of_threads = 0 ∧
    pydecenttree_constructTree sampleWorld sampleCall = .parseFailed ∧
    (pydecenttree_constructTree sampleWorld sampleCall).text = none ∧
    (pydecenttree_constructTree sampleWorld sampleCall).worldAfter sampleWorld = sampleWorld ∧
    pydecenttree_constructTree
        ((pydecenttree_constructTree sampleWorld sampleCall).worldAfter sampleWorld) sampleCall
      = .parseFailed ∧
    (constructTreeBody sampleWorld sampleArgs).result
      = .typeError "Error: sequencenames could not convert item 0 to string." ∧
    (constructTreeBody (constructTreeBody sampleWorld sampleArgs).world sampleArgs).result
      = .typeError "Error: sequencenames could not convert item 0 to string." ∧
    (constructTreeBody sampleWorld sampleArgs).world = sampleWorld ∧
    (constructTreeWith reportingHelpers sampleWorld sampleArgs).result = .unicode "(A,B,C);" ∧
    (sampleWorld.getTreeBuilderByName "NJ").map (fun builder => builder.silent)
      = some false ∧
    ((constructTreeWith reportingHelpers sampleWorld sampleArgs).world.getTreeBuilderByName
        "NJ").map (fun builder => builder.silent)
      = some true :=
  ⟨rfl, rfl, rfl, rfl, rfl, by decide, by decide, rfl, by decide, by decide, by decide⟩

/-- C18, refuted as stated: non-empty sequences arguments that do not stop at
label collection.  The call of the specification's scenario, with three labels,
returns from the parse at line 190 and `isVectorOfString` is not called.  In
lines 192-263, for a list of `2 ^ 31` labels the count becomes a negative `int`,
no element is visited, `isVectorOfString` succeeds without a label and the body
stops at the fewer-than-3-labels check. -/
theorem call_stops_before_label_collection :
    PySequence_List labelsABC = some [textObject "A", textObject "B", textObject "C"] ∧
    pydecenttree_constructTree sampleWorld sampleCall = .parseFailed ∧
    (pydecenttree_constructTree sampleWorld sampleCall).trace = [] ∧
    List.replicate 2147483648 (textObject "A") ≠ [] ∧
    isVectorOfString "sequencenames"
        (some (listObject (List.replicate 2147483648 (textObject "A")))) []
        ((StringStream.mk []).put "Error: ")
      = (true, [], (StringStream.mk []).put "Error: ") ∧
    (constructTreeBody sampleWorld
        (callWith (some "NJ") (some (listObject (List.replicate 2147483648 (textObject "A"))))
          (some distances3x3))).result
      = .typeError "Error: sequencenames contains only 0 sequences (must have at least 3)." := by
  have hcount : (toInt32 ((List.replicate 2147483648 (textObject "A")).length : Nat)).toNat
      = 0 := by
    rw [List.length_replicate]
    decide
  have hlabels := isVectorOfString_skipped "sequencenames"
    (listObject (List.replicate 2147483648 (textObject "A")))
    (List.replicate 2147483648 (textObject "A")) [] ((StringStream.mk []).put "Error: ")
    rfl hcount
  refine ⟨rfl, rfl, rfl, ?_, hlabels, ?_⟩
  · intro hempty
    have hlength := congrArg List.length hempty
    rw [List.length_replicate] at hlength
    exact absurd hlength (by decide)
  · have hout := constructTreeWith_few_labels sourceHelpers sampleWorld
      (callWith (some "NJ") (some (listObject (List.replicate 2147483648 (textObject "A"))))
        (some distances3x3))
      "NJ" fixedTreeBuilder distances3x3 [] rfl rfl rfl hlabels (by decide)
    unfold constructTreeBody
    rw [hout]
    rfl

/-- C18, amended. No call invokes `obeyThreadCount`, `beSilent` or
`constructTreeStringInMemory`, and every call ends in an error: the function
returns no text, calls at most `isVectorOfString` and leaves the state as it
was, and so do lines 192-263 run on any values of the locals.  Where the body
stops: when the name resolves and distances are supplied, a sequences argument
of between 1 and `2 ^ 31 - 1` elements stops at label collection, with the
complaint about item 0, and an empty one stops at the fewer-than-3-labels
check. -/
theorem never_invokes_and_stops_at_labels (world : World) (call : PyCall) (args : Args) :
    ((pydecenttree_constructTree world call).text = none ∧
      (∀ made ∈ (pydecenttree_constructTree world call).trace, made = Call.isVectorOfString) ∧
      (pydecenttree_constructTree world call).worldAfter world = world) ∧
    ((∃ message, (constructTreeBody world args).result = .typeError message) ∧
      (∀ call ∈ (constructTreeBody world args).trace, call = Call.isVectorOfString) ∧
      (constructTreeBody world args).world = world) ∧
    (∀ algorithm_name algorithm distance_arg arg seq,
      args.algorithm_name = some algorithm_name →
      world.getTreeBuilderByName algorithm_name = some algorithm →
      args.distance_arg = some distance_arg →
      args.sequence_arg = some arg → PySequence_List arg = some seq →
      (seq ≠ [] → seq.length < 2 ^ 31 →
        (constructTreeBody world args).result
          = .typeError "Error: sequencenames could not convert item 0 to string." ∧
        (constructTreeBody world args).complaint
          = (isVectorOfString "sequencenames" args.sequence_arg []
              ((StringStream.mk []).put "Error: ")).2.2 ∧
        (isVectorOfString "sequencenames" args.sequence_arg []
          ((StringStream.mk []).put "Error: ")).1 = false) ∧
      (seq = [] →
        (constructTreeBody world args).result
          = .typeError
              "Error: sequencenames contains only 0 sequences (must have at least 3)." ∧
        (isVectorOfString "sequencenames" args.sequence_arg []
          ((StringStream.mk []).put "Error: ")).1 = true)) := by
  refine ⟨?_, ?_, ?_⟩
  · cases hparse : PyArg_ParseTupleAndKeywords call with
    | none =>
      have hout : pydecenttree_constructTree world call = .parseFailed := by
        unfold pydecenttree_constructTree
        rw [hparse]
      rw [hout]
      exact ⟨rfl, fun made hmade => absurd hmade (List.not_mem_nil made), rfl⟩
    | some locals =>
      have hout : pydecenttree_constructTree world call
          = .finished (constructTreeBody world locals) := by
        unfold pydecenttree_constructTree
        rw [hparse]
      obtain ⟨text, trace, _, htrace, hbody⟩ := constructTree_source world locals
      rw [hout, hbody]
      refine ⟨rfl, ?_, rfl⟩
      intro made hmade
      rcases htrace with htrace | htrace
      · rw [htrace] at hmade
        exact absurd hmade (List.not_mem_nil made)
      · rw [htrace] at hmade
        exact List.mem_singleton.mp hmade
  · obtain ⟨text, trace, _, htrace, hout⟩ := constructTree_source world args
    rw [hout]
    refine ⟨⟨_, rfl⟩, ?_, rfl⟩
    intro call hcall
    rcases htrace with htrace | htrace
    · rw [htrace] at hcall
      simp at hcall
    · rw [htrace] at hcall
      simpa using hcall
  · intro algorithm_name algorithm distance_arg arg seq hname hfound hdist hseq hlist
    constructor
    · intro hne hshort
      cases seq with
      | nil => exact absurd rfl hne
      | cons item rest =>
        obtain ⟨remaining, hcount⟩ :=
          toNat_toInt32_pos (item :: rest).length (by simp) hshort
        have hlabels := isVectorOfString_first "sequencenames" arg item rest remaining []
          ((StringStream.mk []).put "Error: ") hlist hcount
        rw [hseq, hlabels]
        have hout := constructTreeWith_labels_failed sourceHelpers world args algorithm_name
          algorithm distance_arg _ _ hname hfound hdist (by rw [hseq]; exact hlabels)
        unfold constructTreeBody
        rw [hout]
        exact ⟨rfl, rfl, rfl⟩
    · intro hempty
      subst hempty
      have hlabels := isVectorOfString_skipped "sequencenames" arg [] []
        ((StringStream.mk []).put "Error: ") hlist (by decide)
      rw [hseq, hlabels]
      have hout := constructTreeWith_few_labels sourceHelpers world args algorithm_name
        algorithm distance_arg [] hname hfound hdist (by rw [hseq]; exact hlabels) (by decide)
      unfold constructTreeBody
      rw [hout]
      exact ⟨rfl, rfl⟩

/-- C18, amended, on the specification's scenario and on an empty label list. -/
theorem never_invokes_and_stops_at_labels_witness :
    ((pydecenttree_constructTree sampleWorld sampleCall).text = none ∧
      (∀ made ∈ (pydecenttree_constructTree sampleWorld sampleCall).trace,
        made = Call.isVectorOfString) ∧
      (pydecenttree_constructTree sampleWorld sampleCall).worldAfter sampleWorld
        = sampleWorld) ∧
    ((constructTreeBody sampleWorld sampleArgs).result
        = .typeError "Error: sequencenames could not convert item 0 to string." ∧
      (constructTreeBody sampleWorld sampleArgs).complaint
        = (isVectorOfString "sequencenames" sampleArgs.sequence_arg []
            ((StringStream.mk []).put "Error: ")).2.2 ∧
      (isVectorOfString "sequencenames" sampleArgs.sequence_arg []
        ((StringStream.mk []).put "Error: ")).1 = false) ∧
    ((constructTreeBody sampleWorld
        (callWith (some "NJ") (some (listObject [])) (some distances3x3))).result
        = .typeError "Error: sequencenames contains only 0 sequences (must have at least 3)." ∧
      (isVectorOfString "sequencenames"
        (callWith (some "NJ") (some (listObject [])) (some distances3x3)).sequence_arg []
        ((StringStream.mk []).put "Error: ")).1 = true) :=
  ⟨(never_invokes_and_stops_at_labels sampleWorld sampleCall sampleArgs).1,
    ((never_invokes_and_stops_at_labels sampleWorld sampleCall sampleArgs).2.2 "NJ"
      fixedTreeBuilder distances3x3 labelsABC [textObject "A", textObject "B", textObject "C"]
      rfl rfl rfl rfl rfl).1 (List.cons_ne_nil _ _) (by decide),
    ((never_invokes_and_stops_at_labels sampleWorld sampleCall
      (callWith (some "NJ") (some (listObject [])) (some distances3x3))).2.2 "NJ"
      fixedTreeBuilder distances3x3 (listObject []) [] rfl rfl rfl rfl rfl).2 rfl⟩

/-- C19, refuted as stated: a non-empty sequence on which `isVectorOfDouble`
returns true.  For a list of `2 ^ 31` numbers the count becomes a negative
`int` and no element is visited. -/
theorem long_number_list_is_accepted :
    List.replicate 2147483648 number0 ≠ [] ∧
    isVectorOfDouble "distance" (some (listObject (List.replicate 2147483648 number0))) []
        .null 0 ((StringStream.mk []).put "Error: ")
      = (true, [], .vectorData [], 0, (StringStream.mk []).put "Error: ") := by
  constructor
  · intro hempty
    have hlength := congrArg List.length hempty
    rw [List.length_replicate] at hlength
    exact absurd hlength (by decide)
  · have hcount : (toInt32 ((List.replicate 2147483648 number0).length : Nat)).toNat = 0 := by
      rw [List.length_replicate]
      decide
    rw [isVectorOfDouble_skipped "distance" (listObject (List.replicate 2147483648 number0))
      (List.replicate 2147483648 number0) [] .null 0 ((StringStream.mk []).put "Error: ")
      rfl hcount]
    rfl

/-- C19, amended. For every sequence of between 1 and `2 ^ 31 - 1` elements the
source's `isVectorOfDouble` returns false with exactly the complaint
`<name> could not convert item 0 to string.`, whatever the elements are, leaves
`element_count = 0` and `element_data = null`, and has appended to the buffer
the first element's value when that element is numeric and nothing otherwise;
among sequences of fewer than `2 ^ 31` elements it returns true only for the
empty one, and then the count is the size of the buffer, 0 for an empty
buffer; what `element_data` and `element_count` held on entry is overwritten. -/
theorem isVectorOfDouble_fails_at_item_zero (vector_name : String) (arg : PyObject)
    (seq : List PyObject) (doubles : DoubleVector) (element_data : DataPtr)
    (element_count : Int) (complaint : StringStream)
    (hlist : PySequence_List arg = some seq) (hshort : seq.length < 2 ^ 31) :
    (∀ item rest, seq = item :: rest →
      isVectorOfDouble vector_name (some arg) doubles element_data element_count complaint
        = (false,
            (match PyFloat_AsDouble item with
              | some float_val => doubles ++ [float_val]
              | none => doubles),
            .null, 0, complaint.put (vector_name ++ " could not convert item 0 to string."))) ∧
    ((isVectorOfDouble vector_name (some arg) doubles element_data element_count complaint).1
        = true ↔ seq = []) ∧
    (seq = [] →
      isVectorOfDouble vector_name (some arg) doubles element_data element_count complaint
        = (true, doubles, .vectorData doubles, toIntptr doubles.length, complaint)) ∧
    (seq = [] → doubles = [] →
      (isVectorOfDouble vector_name (some arg) doubles element_data element_count
        complaint).2.2.2.1 = 0) ∧
    isVectorOfDouble vector_name (some arg) doubles element_data element_count complaint
      = isVectorOfDouble vector_name (some arg) doubles .null 0 complaint := by
  have hfirst : ∀ item rest, seq = item :: rest →
      isVectorOfDouble vector_name (some arg) doubles element_data element_count complaint
        = (false,
            (match PyFloat_AsDouble item with
              | some float_val => doubles ++ [float_val]
              | none => doubles),
            .null, 0,
            complaint.put (vector_name ++ " could not convert item 0 to string.")) := by
    intro item rest hseq
    subst hseq
    obtain ⟨remaining, hcount⟩ := toNat_toInt32_pos (item :: rest).length (by simp) hshort
    rw [isVectorOfDouble_first vector_name arg item rest remaining doubles element_data
      element_count complaint hlist hcount, appendDoubleVector_snd]
  have hnone : seq = [] →
      isVectorOfDouble vector_name (some arg) doubles element_data element_count complaint
        = (true, doubles, .vectorData doubles, toIntptr doubles.length, complaint) := by
    intro hseq
    subst hseq
    exact isVectorOfDouble_skipped vector_name arg [] doubles element_data element_count
      complaint hlist (by decide)
  refine ⟨hfirst, ?_, hnone, ?_, rfl⟩
  · constructor
    · intro hsuccess
      cases hseq : seq with
      | nil => rfl
      | cons item rest =>
        rw [hfirst item rest hseq] at hsuccess
        exact absurd hsuccess (by simp)
    · intro hseq
      rw [hnone hseq]
  · intro hseq hbuffer
    rw [hnone hseq, hbuffer]
    show toIntptr (([] : DoubleVector).length : Int) = 0
    decide

/-- C19, amended, on the nine distances, on a list starting with a text, and on
the empty list with a pointer and a count left by an earlier reader. -/
theorem isVectorOfDouble_fails_at_item_zero_witness :
    isVectorOfDouble "distance" (some distances3x3) [] (.arrayData doubleMatrix3x3.data) 9
        ((StringStream.mk []).put "Error: ")
      = (false, [double0], .null, 0,
          ((StringStream.mk []).put "Error: ").put
            "distance could not convert item 0 to string.") ∧
    isVectorOfDouble "distance" (some (listObject [textObject "x", number1])) [] .null 0
        ((StringStream.mk []).put "Error: ")
      = (false, [], .null, 0,
          ((StringStream.mk []).put "Error: ").put
            "distance could not convert item 0 to string.") ∧
    (isVectorOfDouble "distance" (some (listObject [])) [] (.arrayData doubleMatrix3x3.data) 9
        ((StringStream.mk []).put "Error: ")).2.2.2.1 = 0 :=
  ⟨(isVectorOfDouble_fails_at_item_zero "distance" distances3x3
      [number0, number1, number2, number1, number0, number3, number2, number3, number0] []
      (.arrayData doubleMatrix3x3.data) 9 ((StringStream.mk []).put "Error: ") rfl
      (by decide)).1 number0
      [number1, number2, number1, number0, number3, number2, number3, number0] rfl,
    (isVectorOfDouble_fails_at_item_zero "distance" (listObject [textObject "x", number1])
      [textObject "x", number1] [] .null 0 ((StringStream.mk []).put "Error: ") rfl
      (by decide)).1 (textObject "x") [number1] rfl,
    (isVectorOfDouble_fails_at_item_zero "distance" (listObject []) [] []
      (.arrayData doubleMatrix3x3.data) 9 ((StringStream.mk []).put "Error: ") rfl
      (by decide)).2.2.2.1 rfl rfl⟩

end PyDecentTree
